import Mathlib

/-!
Verification development for the frontend-agent repository (src/app.py and
src/generator.py), a Streamlit website-builder.  The Python code is shallowly
embedded: pure string manipulation is translated to Lean functions over
`String` / `List Char`, Python dicts become association lists with Python's
insertion-order/overwrite semantics, `datetime.now().year` becomes an explicit
`year` parameter, and code paths that can raise (IndexError, ValueError,
network errors) return `Option` / `Except`.
-/

/-! ## Python string primitives -/

/-- Python `\s` for ASCII text: the whitespace class used by `re` and by
`str.strip()` / `str.split()` with no arguments. -/
def isPySpace (c : Char) : Bool :=
  c = ' ' ∨ c = '\t' ∨ c = '\n' ∨ c = '\x0d' ∨ c = '\x0b' ∨ c = '\x0c'

/-- Python `\w` for ASCII text: letters, digits and underscore. -/
def isPyWord (c : Char) : Bool :=
  (('a' ≤ c ∧ c ≤ 'z') ∨ ('A' ≤ c ∧ c ≤ 'Z') ∨ ('0' ≤ c ∧ c ≤ '9') ∨ c = '_')

/-- Python `str.strip()` on a char list: drop whitespace from both ends. -/
def pyStripL (l : List Char) : List Char :=
  ((l.dropWhile isPySpace).reverse.dropWhile isPySpace).reverse

/-- Python `str.strip()`. -/
def pyStrip (s : String) : String := String.mk (pyStripL s.data)

/-- Python `str.lower()` (ASCII range, which is all the repository uses). -/
def pyLower (s : String) : String := String.mk (s.data.map Char.toLower)

/-- Python `str.split()` with no argument: split on whitespace runs, dropping
empty words. -/
def pySplitWsL : List Char → List (List Char)
  | [] => []
  | c :: cs =>
    if isPySpace c then pySplitWsL cs
    else
      match pySplitWsL cs with
      | [] => [[c]]
      | w :: ws => if cs ≠ [] ∧ isPySpace cs.head! then [c] :: w :: ws else (c :: w) :: ws

/-- Python `str.capitalize()`: first character upper-cased, the rest
lower-cased. -/
def pyCapitalizeL : List Char → List Char
  | [] => []
  | c :: cs => c.toUpper :: cs.map Char.toLower

/-- Python `str.replace(old, new)` on char lists, left-to-right and
non-overlapping; the fuel argument (one unit per character consumed) makes the
recursion structural, and every call supplies enough of it.  The repository
never calls `replace` with an empty pattern. -/
def pyReplaceAux (old new : List Char) : Nat → List Char → List Char
  | 0, s => s
  | _ + 1, [] => []
  | fuel + 1, c :: cs =>
    if old.isPrefixOf (c :: cs) then new ++ pyReplaceAux old new fuel ((c :: cs).drop old.length)
    else c :: pyReplaceAux old new fuel cs

/-- Python `str.replace(old, new)` for a non-empty `old`. -/
def pyReplace (s old new : String) : String :=
  if old.data = [] then s
  else String.mk (pyReplaceAux old.data new.data s.data.length s.data)

/-- Boolean substring test on char lists (used for Python's `in` on strings). -/
def isSubL (needle : List Char) : List Char → Bool
  | [] => needle.isPrefixOf []
  | c :: cs => needle.isPrefixOf (c :: cs) || isSubL needle cs

/-- Python `needle in haystack` for strings. -/
def pyContains (haystack needle : String) : Bool := isSubL needle.data haystack.data

/-- Python `s.startswith(pre)`. -/
def pyStartsWith (s pre : String) : Bool := pre.data.isPrefixOf s.data

/-- Substring as a proposition: `a` occurs inside `b`. -/
def strOccursIn (a b : String) : Prop := ∃ x y : String, b = x ++ (a ++ y)

/-- A Python dict update `d[k] = v` on an insertion-ordered association list:
an existing key keeps its position and gets the new value, a fresh key is
appended. -/
def dictInsert (m : List (String × String)) (k v : String) : List (String × String) :=
  if m.any (fun kv => kv.1 = k) then m.map (fun kv => if kv.1 = k then (k, v) else kv)
  else m ++ [(k, v)]

/-- Decimal digit character, as Python prints it. -/
def digitChar (n : Nat) : Char :=
  if n = 0 then '0' else if n = 1 then '1' else if n = 2 then '2' else if n = 3 then '3'
  else if n = 4 then '4' else if n = 5 then '5' else if n = 6 then '6'
  else if n = 7 then '7' else if n = 8 then '8' else '9'

/-- Decimal rendering of a natural number (digits of `n`, fuel-structural; the
fuel `n + 1` always suffices since the recursion divides by ten). -/
def natReprAux : Nat → Nat → List Char
  | 0, _ => []
  | fuel + 1, n =>
    if n < 10 then [digitChar n]
    else natReprAux fuel (n / 10) ++ [digitChar (n % 10)]

/-- Python `str(n)` for a natural number. -/
def natRepr (n : Nat) : String := String.mk (natReprAux (n + 1) n)

/-! ## The regex engine for `safe_extract_code_blocks` (src/app.py lines 46-65)

The two patterns the Python code feeds to `re.findall` are compiled by hand
into backtracking matchers.  `starGreedy` is a greedy `cls*` (longest
alternative first), `starLazyCap` a lazy capturing `(.*?)` (shortest first),
with continuation passing giving exactly Python's backtracking priority;
`findAll` scans left to right and resumes after each non-overlapping match,
as `re.findall` does. -/

/-- Match a literal character sequence, returning the rest of the input. -/
def litM : List Char → List Char → Option (List Char)
  | [], s => some s
  | _ :: _, [] => none
  | l :: ls, c :: cs => if c = l then litM ls cs else none

/-- Match a literal case-insensitively (the Python pattern carries
`re.IGNORECASE`; only the token `end` contains letters). -/
def litCI : List Char → List Char → Option (List Char)
  | [], s => some s
  | _ :: _, [] => none
  | l :: ls, c :: cs => if c.toLower = l.toLower then litCI ls cs else none

/-- Greedy `p*` followed by the continuation `k`: try consuming as much as
possible first, backing off one character at a time. -/
def starGreedy {α : Type} (p : Char → Bool) (k : List Char → Option α) : List Char → Option α
  | [] => k []
  | c :: cs =>
    if p c then
      match starGreedy p k cs with
      | some r => some r
      | none => k (c :: cs)
    else k (c :: cs)

/-- Lazy capturing `(.*?)` followed by the continuation `k`: try the shortest
capture first, growing it one character at a time; `k` receives the captured
characters and the rest. -/
def starLazyCap {α : Type} (p : Char → Bool) (k : List Char → List Char → Option α) :
    List Char → List Char → Option α
  | acc, s =>
    match k acc s with
    | some r => some r
    | none =>
      match s with
      | [] => none
      | c :: cs => if p c then starLazyCap p k (acc ++ [c]) cs else none

/-- One attempted match of `---\s*(.*?)\s*---\n(.*?)---\s*end\s*---` (flags
DOTALL and IGNORECASE) at the head of the input; on success, the two captured
groups and the input after the match. -/
def delimMatchAt (s : List Char) : Option ((List Char × List Char) × List Char) :=
  match litM ['-', '-', '-'] s with
  | none => none
  | some s1 =>
    starGreedy isPySpace (fun s2 =>
      starLazyCap (fun _ => true) (fun g1 s3 =>
        starGreedy isPySpace (fun s4 =>
          match litM ['-', '-', '-', '\n'] s4 with
          | none => none
          | some s5 =>
            starLazyCap (fun _ => true) (fun g2 s6 =>
              match litM ['-', '-', '-'] s6 with
              | none => none
              | some s7 =>
                starGreedy isPySpace (fun s8 =>
                  match litCI ['e', 'n', 'd'] s8 with
                  | none => none
                  | some s9 =>
                    starGreedy isPySpace (fun s10 =>
                      match litM ['-', '-', '-'] s10 with
                      | none => none
                      | some s11 => some ((g1, g2), s11)) s9) s7) [] s5) s3) [] s2) s1

/-- One attempted match of the fenced-code-block pattern (three backquotes,
an optional language word, a newline, a lazy capture, three closing
backquotes) at the head of the input. -/
def fencedMatchAt (s : List Char) : Option (List Char × List Char) :=
  match litM ['\x60', '\x60', '\x60'] s with
  | none => none
  | some s1 =>
    starGreedy isPyWord (fun s2 =>
      match litM ['\n'] s2 with
      | none => none
      | some s3 =>
        starLazyCap (fun _ => true) (fun g s4 =>
          match litM ['\x60', '\x60', '\x60'] s4 with
          | none => none
          | some s5 => some (g, s5)) [] s3) s1

/-- Scan for non-overlapping matches from left to right, resuming after each
match, exactly as `re.findall` does.  One unit of fuel is spent per character
passed over, and every match consumes at least one character, so fuel equal to
the input length never runs out. -/
def findAllAux {β : Type} (matchAt : List Char → Option (β × List Char)) :
    Nat → List Char → List β
  | 0, _ => []
  | _ + 1, [] => []
  | fuel + 1, c :: cs =>
    match matchAt (c :: cs) with
    | some (b, rest) => b :: findAllAux matchAt fuel rest
    | none => findAllAux matchAt fuel cs

/-- All matches of the delimited-file-block pattern, as (filename group,
content group) pairs. -/
def findAllDelim (s : List Char) : List (List Char × List Char) :=
  findAllAux delimMatchAt s.length s

/-- All matches of the fenced-code-block pattern (the captured contents). -/
def findAllFenced (s : List Char) : List (List Char) :=
  findAllAux fencedMatchAt s.length s

/-! ## safe_extract_code_blocks (src/app.py lines 46-65) -/

/-- Strategy 1's dict: each `--- name --- content --- end ---` match inserts
`files[filename.strip()] = content.strip()`. -/
def delimFiles (ms : List (List Char × List Char)) : List (String × String) :=
  ms.foldl (fun fs m => dictInsert fs (String.mk (pyStripL m.1)) (String.mk (pyStripL m.2))) []

/-- Strategy 2's dict: `files[f"file_{i}.txt"] = cb.strip()` for the fenced
blocks, numbered from 1. -/
def fencedFiles (cbs : List (List Char)) : List (String × String) :=
  (cbs.foldl
    (fun (acc : Nat × List (String × String)) cb =>
      (acc.1 + 1,
       dictInsert acc.2 ("file_" ++ (natRepr acc.1 ++ ".txt")) (String.mk (pyStripL cb))))
    (1, [])).2

/-- Strategy 3's trigger: `"<html" in text.lower() or "<!doctype html" in
text.lower()`. -/
def hasHtmlMarker (text : String) : Bool :=
  pyContains (pyLower text) "<html" || pyContains (pyLower text) "<!doctype html"

/-- The LLM-output parser `safe_extract_code_blocks` of src/app.py: delimited
file blocks first; else fenced code blocks named positionally; else, when the
dict is still empty and an HTML marker occurs, the whole stripped text as
`index.html`. -/
def safe_extract_code_blocks (text : String) : List (String × String) :=
  let ms := findAllDelim text.data
  if ms ≠ [] then delimFiles ms
  else
    let files := fencedFiles (findAllFenced text.data)
    if files = [] ∧ hasHtmlMarker text then dictInsert files "index.html" (pyStrip text)
    else files

/-! ## textwrap.dedent

`dedent` (as documented and as CPython implements it): lines consisting
solely of blanks are normalized to empty, the margin is the longest common
leading blank prefix of the remaining lines, and that margin is stripped
from every line that starts with it. -/

/-- A blank for `dedent`'s purposes: space or tab. -/
def isBlankChar (c : Char) : Bool := c = ' ' ∨ c = '\t'

/-- A non-empty line made only of blanks (`^[ \t]+$`). -/
def wsOnly (l : List Char) : Bool := (decide (l ≠ [])) && l.all isBlankChar

/-- The lines of a text, Python `text.split('\n')`. -/
def linesOf (l : List Char) : List (List Char) := l.splitOn '\n'

/-- Longest common prefix of two character lists (CPython's margin-merging
loop computes exactly this). -/
def commonPrefix : List Char → List Char → List Char
  | [], _ => []
  | _ :: _, [] => []
  | a :: as, b :: bs => if a = b then a :: commonPrefix as bs else []

/-- The common margin of the lines that have non-blank content. -/
def marginOf (segs : List (List Char)) : List Char :=
  let indents := (segs.filter (fun l => l.any (fun c => !isBlankChar c))).map
    (fun l => l.takeWhile isBlankChar)
  match indents with
  | [] => []
  | i :: is => is.foldl commonPrefix i

/-- `textwrap.dedent` on a character list. -/
def pyDedentL (l : List Char) : List Char :=
  let segs := (linesOf l).map (fun seg => if wsOnly seg then [] else seg)
  let margin := marginOf segs
  let segs :=
    if margin = [] then segs
    else segs.map (fun seg => if margin.isPrefixOf seg then seg.drop margin.length else seg)
  List.intercalate ['\n'] segs

/-- Python `textwrap.dedent`. -/
def pyDedent (s : String) : String := String.mk (pyDedentL s.data)

/-! ## Template text constants (src/app.py, React branch), after dedent -/

/-- Content of `package.json` as the React branch emits it. -/
def packageJsonText : String :=
  "\x7b\n  \"name\": \"generated-frontend\",\n  \"version\": \"1.0.0\",\n  \"private\": true,\n  \"scripts\": \x7b\n    \"start\": \"vite\",\n    \"dev\": \"vite\",\n    \"build\": \"vite build\"\n  \x7d,\n  \"dependencies\": \x7b\n    \"react\": \"^18.2.0\",\n    \"react-dom\": \"^18.2.0\",\n    \"react-router-dom\": \"^6.14.1\"\n  \x7d,\n  \"devDependencies\": \x7b\n    \"vite\": \"^4.5.0\",\n    \"tailwindcss\": \"^3.5.0\",\n    \"postcss\": \"^8.4.0\",\n    \"autoprefixer\": \"^10.4.0\"\n  \x7d\n\x7d"

/-- Content of `index.html` as the React branch emits it. -/
def reactIndexHtmlText : String :=
  "<!DOCTYPE html>\n        <html lang=\"en\">\n        <head>\n          <meta charset=\"UTF-8\" />\n          <meta name=\"viewport\" content=\"width=device-width, initial-scale=1.0\" />\n          <title>Generated React App</title>\n        </head>\n        <body>\n          <div id=\"root\"></div>\n          <script type=\"module\" src=\"/src/main.jsx\"></script>\n        </body>\n        </html>"

/-- Content of `tailwind.config.cjs` as the React branch emits it. -/
def tailwindConfigText : String :=
  "module.exports = \x7b\n  content: [\"./index.html\", \"./src/**/*.\x7bjs,jsx\x7d\"],\n  theme: \x7b\n    extend: \x7b\x7d,\n  \x7d,\n  plugins: [],\n\x7d"

/-- Content of `postcss.config.cjs` as the React branch emits it. -/
def postcssConfigText : String :=
  "module.exports = \x7b\n  plugins: \x7b\n    tailwindcss: \x7b\x7d,\n    autoprefixer: \x7b\x7d,\n  \x7d\n\x7d"

/-- Content of `src/index.css` as the React branch emits it. -/
def indexCssText : String :=
  "@tailwind base;\n@tailwind components;\n@tailwind utilities;\n\n/* custom global styles */\nbody \x7b @apply bg-white text-gray-900; \x7d\n.dark body \x7b @apply bg-gray-900 text-gray-100; \x7d"

/-- Content of `src/main.jsx` as the React branch emits it. -/
def mainJsxText : String :=
  "import React from \x27react\x27;\nimport \x7b createRoot \x7d from \x27react-dom/client\x27;\nimport \x7b BrowserRouter as Router \x7d from \x27react-router-dom\x27;\nimport App from \x27./App.jsx\x27;\nimport \x27./index.css\x27;\ncreateRoot(document.getElementById(\x27root\x27)).render(\n  <React.StrictMode>\n    <Router>\n      <App />\n    </Router>\n  </React.StrictMode>\n);"

/-- Content of `src/styles.css` as the React branch emits it. -/
def stylesCssText : String :=
  "/* Basic styles in case Tailwind not initialized yet */\nbody \x7b margin: 0; font-family: Arial, Helvetica, sans-serif; \x7d .app \x7b max-width: 1200px; margin: 0 auto; \x7d"

/-- Content of `setup.sh` as the React branch emits it. -/
def setupShText : String :=
  "#!/usr/bin/env bash\nnpm install\nnpm run dev\n"

/-- Content of `setup.bat` as the React branch emits it. -/
def setupBatText : String :=
  "@echo off\nnpm install\nnpm start\npause\n"

/-- The `App.jsx` skeleton `app_template` with its five substitution points. -/
def appTemplateText : String :=
  "\nimport React, \x7b useState \x7d from \x27react\x27;\nimport \x7b Routes, Route, Link \x7d from \x27react-router-dom\x27;\nPLACEHOLDER_IMPORTS\n\nexport default function App() \x7b\n  const [dark, setDark] = useState(false);\n  return (\n    <div className=\x7bdark ? \x27dark\x27 : \x27\x27\x7d>\n      <div className=\"min-h-screen flex\">\n        PLACEHOLDER_SIDEBAR\n        <div className=\"flex-1 flex flex-col\">\n          PLACEHOLDER_NAV\n          <main className=\"p-6 flex-1\">\n            <Routes>\n              PLACEHOLDER_ROUTES\n            </Routes>\n          </main>\n          PLACEHOLDER_FOOTER\n        </div>\n      </div>\n    </div>\n  );\n\x7d\n"

/-- Content of `src/pages/About.jsx` (only emitted when `about` is set). -/
def aboutPageText : String :=
  "import React from \x27react\x27;\nexport default function About() \x7b\n  return (\n    <div>\n      <h2 className=\"text-2xl font-semibold mb-4\">About Us</h2>\n      <p>Welcome to our website! This is the about page.</p>\n    </div>\n  );\n\x7d\n"

/-- Content of `src/pages/Contact.jsx` (only emitted when `contact` is set). -/
def contactPageText : String :=
  "import React, \x7b useState \x7d from \x27react\x27;\n\nexport default function Contact() \x7b\n  const [form, setForm] = useState(\x7b name: \"\", email: \"\", message: \"\" \x7d);\n\n  const handleChange = (e) => \x7b\n    setForm(\x7b ...form, [e.target.name]: e.target.value \x7d);\n  \x7d;\n\n  const handleSubmit = (e) => \x7b\n    e.preventDefault();\n    alert(\x60Message sent!\\nName: $\x7bform.name\x7d\\nEmail: $\x7bform.email\x7d\\nMessage: $\x7bform.message\x7d\x60);\n    setForm(\x7b name: \"\", email: \"\", message: \"\" \x7d); // reset\n  \x7d;\n\n  return (\n    <div className=\"flex flex-col items-center p-6\">\n      <h2 className=\"text-2xl font-semibold mb-6\">Contact Us</h2>\n      <form\n        onSubmit=\x7bhandleSubmit\x7d\n        className=\"flex flex-col space-y-4 w-full max-w-md bg-white p-6 rounded-2xl shadow-lg\"\n      >\n        <div>\n          <label className=\"block text-gray-700 mb-2\">Your Name</label>\n          <input\n            type=\"text\"\n            name=\"name\"\n            value=\x7bform.name\x7d\n            onChange=\x7bhandleChange\x7d\n            placeholder=\"John Doe\"\n            className=\"w-full border border-gray-300 rounded-lg px-4 py-2 focus:outline-none focus:ring-2 focus:ring-blue-500\"\n            required\n          />\n        </div>\n        <div>\n          <label className=\"block text-gray-700 mb-2\">Your Email</label>\n          <input\n            type=\"email\"\n            name=\"email\"\n            value=\x7bform.email\x7d\n            onChange=\x7bhandleChange\x7d\n            placeholder=\"you@example.com\"\n            className=\"w-full border border-gray-300 rounded-lg px-4 py-2 focus:outline-none focus:ring-2 focus:ring-blue-500\"\n            required\n          />\n        </div>\n        <div>\n          <label className=\"block text-gray-700 mb-2\">Message</label>\n          <textarea\n            name=\"message\"\n            value=\x7bform.message\x7d\n            onChange=\x7bhandleChange\x7d\n            placeholder=\"Write your message...\"\n            className=\"w-full border border-gray-300 rounded-lg px-4 py-2 focus:outline-none focus:ring-2 focus:ring-blue-500\"\n            rows=\"4\"\n            required\n          />\n        </div>\n        <button\n          type=\"submit\"\n          className=\"bg-blue-600 text-white py-2 rounded-lg hover:bg-blue-700 transition\"\n        >\n          Send\n        </button>\n      </form>\n    </div>\n  );\n\x7d\n"

/-- Content of `src/pages/Login.jsx` (only emitted when `login` is set). -/
def loginPageText : String :=
  "import React from \x27react\x27;\n\nexport default function Login() \x7b\n  return (\n    <div className=\"flex flex-col items-center p-6\">\n      <h2 className=\"text-2xl font-semibold mb-6\">Login</h2>\n      <form className=\"w-full max-w-sm bg-white p-6 rounded-2xl shadow-lg space-y-4\">\n        <div>\n          <label className=\"block text-gray-700 mb-2\">Email</label>\n          <input\n            type=\"email\"\n            placeholder=\"you@example.com\"\n            className=\"w-full border border-gray-300 rounded-lg px-4 py-2 focus:outline-none focus:ring-2 focus:ring-green-500\"\n          />\n        </div>\n        <div>\n          <label className=\"block text-gray-700 mb-2\">Password</label>\n          <input\n            type=\"password\"\n            placeholder=\"Enter your password\"\n            className=\"w-full border border-gray-300 rounded-lg px-4 py-2 focus:outline-none focus:ring-2 focus:ring-green-500\"\n          />\n        </div>\n        <button\n          type=\"submit\"\n          className=\"w-full bg-green-600 text-white py-2 rounded-lg hover:bg-green-700 transition\"\n        >\n          Login\n        </button>\n      </form>\n    </div>\n  );\n\x7d\n"

/-! ## Settings (src/app.py lines 70-98)

Each field is `Option`al: `none` models a key absent from the Python dict, so
`settings.get(key, default)` becomes `Option.getD`. -/

structure Settings where
  title : Option String
  navbar : Option Bool
  navbar_color : Option String
  sidebar : Option Bool
  pages : Option (List String)
  footer : Option Bool
  login : Option Bool
  charts : Option Bool
  theme : Option String
  custom_color : Option String
  about : Option Bool
  contact : Option Bool

/-- `settings.get("title", "My Site")`. -/
def titleOf (s : Settings) : String := s.title.getD "My Site"

/-- `settings.get("navbar", True)`. -/
def navbarOf (s : Settings) : Bool := s.navbar.getD true

/-- `settings.get("navbar_color", "#5B2E0F")`. -/
def navbarColorOf (s : Settings) : String := s.navbar_color.getD "#5B2E0F"

/-- `settings.get("sidebar", True)`. -/
def sidebarOf (s : Settings) : Bool := s.sidebar.getD true

/-- `settings.get("pages", ["Home"])` — the default applies only when the key
is absent, not when the stored list is empty. -/
def pagesOf (s : Settings) : List String := s.pages.getD ["Home"]

/-- `settings.get("footer", False)`. -/
def footerOf (s : Settings) : Bool := s.footer.getD false

/-- `settings.get("login", False)`. -/
def loginOf (s : Settings) : Bool := s.login.getD false

/-- `settings.get("charts", False)`. -/
def chartsOf (s : Settings) : Bool := s.charts.getD false

/-- `settings.get("about", False)`. -/
def aboutOf (s : Settings) : Bool := s.about.getD false

/-- `settings.get("contact", False)`. -/
def contactOf (s : Settings) : Bool := s.contact.getD false

/-- The branch dispatch `"react" in framework.lower()`. -/
def reactFramework (framework : String) : Bool := pyContains (pyLower framework) "react"

/-! ## React branch: per-page pieces (src/app.py lines 213-242) -/

/-- `comp_name = ''.join(word.capitalize() for word in p.split())`. -/
def compName (p : String) : String := String.mk ((pySplitWsL p.data).map pyCapitalizeL).flatten

/-- The chart placeholder `extra` inserted into Analytics/Dashboard/Home pages
when charts are enabled. -/
def chartExtraText : String :=
  "<div className=\x27mt-4 p-4 border rounded\x27>[Chart placeholder — replace with real chart]</div>"

/-- The raw `page_js` f-string with `comp_name` and `p` interpolated, before
the PLACEHOLDER_EXTRA replacement and dedent. -/
def pageJsRaw (comp p : String) : String :=
  "\nimport React from \x27react\x27;\nexport default function " ++ (comp ++
  ("() \x7b\n  return (\n    <div>\n      <h2 className=\"text-2xl font-semibold mb-4\">" ++
  (p ++ ("</h2>\n      <p>This is the " ++ (p ++
  (" page generated by the Website Builder Agent.</p>\n      PLACEHOLDER_EXTRA\n    </div>\n  );\n\x7d\n"))))))

/-- One page module: the f-string, the PLACEHOLDER_EXTRA replacement and the
final dedent, as in the loop body of lines 215-234. -/
def pageModule (p : String) (charts : Bool) : String :=
  let extra :=
    if charts && (pyLower p = "analytics" ∨ pyLower p = "dashboard" ∨ pyLower p = "home") then
      chartExtraText
    else ""
  pyDedent (pyReplace (pageJsRaw (compName p) p) "PLACEHOLDER_EXTRA" extra)

/-- `imports += f"import {comp_name} from './pages/{comp_name}.jsx';\n"`. -/
def importLine (comp : String) : String :=
  "import " ++ (comp ++ (" from \x27./pages/" ++ (comp ++ ".jsx\x27;\n")))

/-- `route_path = "/" if p.lower() == "home" else "/" + p.lower().replace(" ", "-")`. -/
def route_path (p : String) : String :=
  if pyLower p = "home" then "/" else "/" ++ pyReplace (pyLower p) " " "-"

/-- One `<Route .../>` line of `routes_code` (line 241). -/
def routeCode (p comp : String) : String :=
  "<Route path=\"" ++ (route_path p ++ ("\" element=\x7b<" ++ (comp ++ " />\x7d />\n")))

/-- The key under which a page module is stored, `f"src/pages/{comp_name}.jsx"`. -/
def pageFileKey (p : String) : String := "src/pages/" ++ (compName p ++ ".jsx")

/-- The `for p in pages` loop of lines 215-242, accumulating `imports`,
`routes_code` and `page_files`. -/
def pagesLoop (pages : List String) (charts : Bool) :
    String × String × List (String × String) :=
  pages.foldl
    (fun acc p =>
      (acc.1 ++ importLine (compName p),
       acc.2.1 ++ routeCode p (compName p),
       dictInsert acc.2.2 (pageFileKey p) (pageModule p charts)))
    ("", "", [])

/-! ## React branch: the About/Contact/Login extra pages (src/app.py 244-382) -/

/-- Import line added for the auto About page. -/
def aboutImportText : String := "import About from \x27./pages/About.jsx\x27;\n"

/-- Route line added for the auto About page. -/
def aboutRouteText : String := "<Route path=\"/about\" element=\x7b<About />\x7d />\n"

/-- Import line added for the auto Contact page. -/
def contactImportText : String := "import Contact from \x27./pages/Contact.jsx\x27;\n"

/-- Route line added for the auto Contact page. -/
def contactRouteText : String := "<Route path=\"/contact\" element=\x7b<Contact />\x7d />\n"

/-- Import line added for the auto Login page. -/
def loginImportText : String := "import Login from \x27./pages/Login.jsx\x27;\n"

/-- Route line added for the auto Login page. -/
def loginRouteText : String := "<Route path=\"/login\" element=\x7b<Login />\x7d />\n"

/-- The three sequential `if settings.get(...) and "X" not in pages_added`
blocks: `pages_added` starts as the set of `pages` and each taken branch adds
its name; set membership is list membership.  Returns the final
(imports, routes_code, page_files). -/
def addExtras (about contact login : Bool) (pages : List String)
    (imports routes : String) (pf : List (String × String)) :
    String × String × List (String × String) :=
  let st0 := (imports, routes, pf, pages)
  let st1 :=
    if about && !(st0.2.2.2.contains "About") then
      (st0.1 ++ aboutImportText, st0.2.1 ++ aboutRouteText,
       dictInsert st0.2.2.1 "src/pages/About.jsx" aboutPageText, st0.2.2.2 ++ ["About"])
    else st0
  let st2 :=
    if contact && !(st1.2.2.2.contains "Contact") then
      (st1.1 ++ contactImportText, st1.2.1 ++ contactRouteText,
       dictInsert st1.2.2.1 "src/pages/Contact.jsx" contactPageText, st1.2.2.2 ++ ["Contact"])
    else st1
  let st3 :=
    if login && !(st2.2.2.2.contains "Login") then
      (st2.1 ++ loginImportText, st2.2.1 ++ loginRouteText,
       dictInsert st2.2.2.1 "src/pages/Login.jsx" loginPageText, st2.2.2.2 ++ ["Login"])
    else st2
  (st3.1, st3.2.1, st3.2.2.1)

/-! ## React branch: sidebar, navbar, footer, App.jsx (src/app.py 387-448) -/

/-- The per-page link target in the sidebar `Link`, from line 393:
`"/" if p.lower()=="home" else "/" + p.lower()` (note: no hyphen
replacement here, unlike `route_path`). -/
def sidebarLinkPath (p : String) : String :=
  if pyLower p = "home" then "/" else "/" ++ pyLower p

/-- One sidebar link div of line 393. -/
def sidebarLinkDiv (p : String) : String :=
  "<div className=\"mb-2\"><Link to=\"" ++ (sidebarLinkPath p ++
  ("\" className=\"block py-2 px-3 rounded hover:bg-gray-200 dark:hover:bg-gray-700\">" ++
  (p ++ "</Link></div>")))

/-- The raw sidebar f-string (lines 389-396) before dedent. -/
def sidebarRaw (title links : String) : String :=
  "\n            <aside className=\"w-64 bg-gray-100 dark:bg-gray-800 p-4 hidden md:block\">\n              <div className=\"text-xl font-bold mb-6\">" ++
  (title ++ ("</div>\n              <nav>\n                " ++
  (links ++ "\n              </nav>\n            </aside>\n            ")))

/-- `sidebar_code` when the sidebar is enabled. -/
def sidebarCode (title : String) (pages : List String) : String :=
  pyDedent (sidebarRaw title (String.join (pages.map sidebarLinkDiv)))

/-- The raw navbar f-string for a hex `navbar_color` (lines 404-414) before
dedent; `nav_style` is already interpolated. -/
def navRawHex (color title : String) : String :=
  "\n                <header className=\"flex items-center justify-between p-4\" style=\x7bbackground: \x27" ++
  (color ++ ("\x27\x7d>\n                  <div className=\"flex items-center space-x-3\">\n                    <div className=\"text-lg font-bold\">" ++
  (title ++ "</div>\n                  </div>\n                  <div className=\"flex items-center space-x-3\">\n                    <button onClick=\x7b() => setDark(!dark)\x7d className=\"px-3 py-1 rounded bg-white text-black\">Toggle theme</button>\n                  </div>\n                </header>\n                ")))

/-- The raw navbar f-string for a symbolic class `navbar_color` (lines
416-425) before dedent. -/
def navRawClass (color title : String) : String :=
  "\n                <header className=\"flex items-center justify-between p-4 " ++
  (color ++ (" text-white\">\n                  <div className=\"flex items-center space-x-3\">\n                    <div className=\"text-lg font-bold\">" ++
  (title ++ "</div>\n                  </div>\n                  <div className=\"flex items-center space-x-3\">\n                    <button onClick=\x7b() => setDark(!dark)\x7d className=\"px-3 py-1 rounded bg-white text-black\">Toggle theme</button>\n                  </div>\n                </header>\n                ")))

/-- `nav_code`: empty without a navbar, else the hex or class variant picked
by `navbar_color.startswith("#")`. -/
def navCode (navbar : Bool) (color title : String) : String :=
  if navbar then
    if pyStartsWith color "#" then pyDedent (navRawHex color title)
    else pyDedent (navRawClass color title)
  else ""

/-- The raw footer f-string (lines 432-436) before dedent, with the year of
`datetime.now()` passed explicitly. -/
def footerRaw (year : Nat) (title : String) : String :=
  "\n            <footer className=\"p-4 bg-gray-100 dark:bg-gray-900 text-sm text-center\">\n              © " ++
  (natRepr year ++ (" " ++ (title ++ (" — Generated by Website Builder Agent\n            </footer>\n            "))))

/-- `footer_code`. -/
def footerCode (footer : Bool) (year : Nat) (title : String) : String :=
  if footer then pyDedent (footerRaw year title) else ""

/-- `final_app`: the five placeholder replacements on `app_template` followed
by the dedent of line 448. -/
def finalApp (imports sidebar nav routes footer : String) : String :=
  pyDedent
    (pyReplace
      (pyReplace
        (pyReplace
          (pyReplace (pyReplace appTemplateText "PLACEHOLDER_IMPORTS" imports)
            "PLACEHOLDER_SIDEBAR" sidebar)
          "PLACEHOLDER_NAV" nav)
        "PLACEHOLDER_ROUTES" routes)
      "PLACEHOLDER_FOOTER" footer)

/-- `README.md` content (line 459). -/
def readmeText (title : String) : String :=
  pyDedent ("# " ++ (title ++ "\n\nGenerated by Website Builder Agent.\n\nRun \x60npm install\x60 then \x60npm start\x60 to view locally."))

/-! ## React branch: the static preview document (src/app.py 471-497) -/

/-- The conditional aside block of the preview (line 488). -/
def previewAside (sidebar : Bool) (pages : List String) : String :=
  if sidebar then
    "<aside><nav>" ++
    (String.join (pages.map (fun p => "<div><a href=\x27#\x27>" ++ (p ++ "</a></div>"))) ++
    "</nav></aside>")
  else ""

/-- The conditional charts card of the preview (line 491). -/
def previewCharts (charts : Bool) : String :=
  if charts then "<div class=\x27card\x27><h3>Charts</h3><p>Placeholder chart area</p></div>" else ""

/-- The conditional login card of the preview (line 492). -/
def previewLogin (login : Bool) : String :=
  if login then "<div class=\x27card\x27><h3>Login</h3><p>Login page included</p></div>" else ""

/-- The raw preview f-string before dedent; `p0` is `pages[0]`, whose access
is what raises IndexError on an empty pages list. -/
def previewRaw (title color asideBlock p0 chartsBlock loginBlock : String) : String :=
  "<!DOCTYPE html>\n        <html lang=\"en\">\n        <head>\n          <meta charset=\"UTF-8\" />\n          <meta name=\"viewport\" content=\"width=device-width, initial-scale=1.0\" />\n          <title>Preview - " ++
  (title ++ ("</title>\n          <style>\n            body \x7b font-family: Arial, Helvetica, sans-serif; padding: 24px; max-width: 1100px; margin:auto; \x7d\n            header \x7b background:" ++
  (color ++ ("; color: white; padding: 12px 18px; border-radius:6px; \x7d\n            aside \x7b width:220px; float:left; margin-right:18px; background:#f2f2f2; padding:12px; border-radius:6px; \x7d\n            main \x7b overflow:auto; \x7d\n            .card \x7b padding:12px; border:1px solid #e6e6e6; border-radius:6px; margin-bottom:12px; \x7d\n          </style>\n        </head>\n        <body>\n          <header><h1>" ++
  (title ++ ("</h1></header>\n          <div style=\"display:flex; gap:18px; margin-top:18px;\">\n            " ++
  (asideBlock ++ ("\n            <main style=\"flex:1;\">\n              <div class=\"card\"><h2>" ++
  (p0 ++ ("</h2><p>Example content for " ++ (p0 ++ (" page.</p></div>\n              " ++
  (chartsBlock ++ ("\n              " ++ (loginBlock ++
  "\n            </main>\n          </div>\n        </body>\n        </html>")))))))))))))))

/-- `index_preview.html` content. -/
def previewHtml (title color : String) (sidebar : Bool) (pages : List String)
    (p0 : String) (charts login : Bool) : String :=
  pyDedent (previewRaw title color (previewAside sidebar pages) p0
    (previewCharts charts) (previewLogin login))

/-! ## Static HTML branch (src/app.py 501-523) -/

/-- One `<section>` of the static page body (line 507). -/
def sectionFor (p : String) : String :=
  "<section><h2>" ++ (p ++ ("</h2><p>Auto generated " ++ (p ++ " page.</p></section>\n")))

/-- The `body_html` accumulation loop of lines 505-507. -/
def body_html (pages : List String) : String :=
  pages.foldl (fun acc p => acc ++ sectionFor p) ""

/-- The raw static `index_html` f-string (lines 508-520) before dedent. -/
def staticIndexRaw (title body : String) : String :=
  "<!doctype html>\n        <html>\n        <head>\n          <meta charset=\"utf-8\"/>\n          <meta name=\"viewport\" content=\"width=device-width,initial-scale=1\">\n          <title>" ++
  (title ++ ("</title>\n          <style>body\x7bfont-family:Arial; padding:20px;\x7d header\x7bbackground:#222;color:#fff;padding:12px;border-radius:6px\x7d</style>\n        </head>\n        <body>\n          <header><h1>" ++
  (title ++ ("</h1></header>\n          " ++
  (body ++ "\n        </body>\n        </html>")))))

/-- The static branch's markup document. -/
def staticIndexHtml (title : String) (pages : List String) : String :=
  pyDedent (staticIndexRaw title (body_html pages))

/-- The static branch's file dict (lines 501-523); it never raises. -/
def staticFiles (s : Settings) : List (String × String) :=
  dictInsert (dictInsert [] "index.html" (staticIndexHtml (titleOf s) (pagesOf s)))
    "styles.css" "/* simple */"

/-! ## The full generator (src/app.py 70-523) -/

/-- The React branch's file dict in source insertion order; `p0` is the head
of `pages`, needed by the preview document. -/
def reactFiles (s : Settings) (year : Nat) (p0 : String) : List (String × String) :=
  let title := titleOf s
  let pages := pagesOf s
  let lp := pagesLoop pages (chartsOf s)
  let ex := addExtras (aboutOf s) (contactOf s) (loginOf s) pages lp.1 lp.2.1 lp.2.2
  let sidebar_code := if sidebarOf s then sidebarCode title pages else ""
  let nav_code := navCode (navbarOf s) (navbarColorOf s) title
  let footer_code := footerCode (footerOf s) year title
  let f1 := dictInsert [] "package.json" packageJsonText
  let f2 := dictInsert f1 "index.html" reactIndexHtmlText
  let f3 := dictInsert f2 "tailwind.config.cjs" tailwindConfigText
  let f4 := dictInsert f3 "postcss.config.cjs" postcssConfigText
  let f5 := dictInsert f4 "src/index.css" indexCssText
  let f6 := dictInsert f5 "src/main.jsx" mainJsxText
  let f7 := dictInsert f6 "src/App.jsx" (finalApp ex.1 sidebar_code nav_code ex.2.1 footer_code)
  let f8 := ex.2.2.foldl (fun fs kv => dictInsert fs kv.1 kv.2) f7
  let f9 := dictInsert f8 "src/styles.css" stylesCssText
  let f10 := dictInsert f9 "README.md" (readmeText title)
  let f11 := dictInsert f10 "setup.sh" setupShText
  let f12 := dictInsert f11 "setup.bat" setupBatText
  dictInsert f12 "index_preview.html"
    (previewHtml title (navbarColorOf s) (sidebarOf s) pages p0 (chartsOf s) (loginOf s))

/-- `mock_generator_from_settings`: the template generator.  The React branch
raises IndexError (modelled as `none`) when `pages` is present but empty,
because the preview accesses `pages[0]`; every other path returns a dict.
`year` stands for `datetime.now().year`, the only time dependence. -/
def mock_generator_from_settings (s : Settings) (framework : String) (year : Nat) :
    Option (List (String × String)) :=
  if reactFramework framework then
    match pagesOf s with
    | [] => none
    | p0 :: _ => some (reactFiles s year p0)
  else some (staticFiles s)

/-! ## Generation orchestration (src/app.py lines 711-806) -/

/-- The three `if settings[...] and "X" not in settings["pages"]` appends of
lines 734-739, run in source order (Contact, Login, About) on the accumulated
pages list. -/
def autoAppendPages (pages : List String) (contact login about : Bool) : List String :=
  let p1 := if contact && !(pages.contains "Contact") then pages ++ ["Contact"] else pages
  let p2 := if login && !(p1.contains "Login") then p1 ++ ["Login"] else p1
  let p3 := if about && !(p2.contains "About") then p2 ++ ["About"] else p2
  p3

/-- The condition of line 744: the stored framework answer is truthy, starts
with "react" case-insensitively, and the "Use Groq LLM" checkbox is ticked. -/
def wantsRemote (framework : Option String) (useRemote : Bool) : Bool :=
  match framework with
  | none => false
  | some f => !(f = "") && pyStartsWith (pyLower f) "react" && useRemote

/-- `llm_generate` (lines 528-548): the remote completion call either raises
(`none`) or yields a response text, which is fed to the Parser; the prompt
itself does not influence this model's outcome. -/
def llm_generate (remoteResponse : Option String) : Option (List (String × String)) :=
  remoteResponse.map safe_extract_code_blocks

/-- The generation attempt inside the `try` block (lines 742-766): `none`
models an exception escaping to the handler of line 805.  With remote
generation requested, a missing credential falls back to the template
generator; a present credential goes remote.  Otherwise the template
generator runs directly. -/
def generationAttempt (framework : Option String) (useRemote : Bool)
    (apiKey : Option String) (remoteResponse : Option String)
    (s : Settings) (year : Nat) : Option (List (String × String)) :=
  if wantsRemote framework useRemote then
    match apiKey with
    | none => mock_generator_from_settings s (framework.getD "React + Tailwind") year
    | some _ => llm_generate remoteResponse
  else mock_generator_from_settings s (framework.getD "React + Tailwind") year

/-- What reaches the Materializer (lines 768-784): nothing when the attempt
raised (caught at line 805) or when the produced dict is empty (the
`st.error("No files were generated.")` branch); otherwise the dict itself. -/
def deliveredFiles (framework : Option String) (useRemote : Bool)
    (apiKey : Option String) (remoteResponse : Option String)
    (s : Settings) (year : Nat) : Option (List (String × String)) :=
  match generationAttempt framework useRemote apiKey remoteResponse s year with
  | none => none
  | some fd => if fd = [] then none else some fd

/-! ## generator.py: JSON model

`generate_project_from_prompt` (src/generator.py lines 33-72) post-processes
the model's response text with the standard library's `json.loads` and
`json.dumps`, whose code is not part of this repository.  JSON values are
modelled by `JVal`, and the claim theorem abstracts the two library calls as
parameters `loads : String → Option JVal` (with `none` for a raising call)
and `dumps : JVal → String`: what it proves is exactly the control flow and
post-processing written in generator.py, for every behaviour of the library.

`pyJsonLoads` and `pyJsonDumps` below are one executable instance, used by
the concrete counterexample: a recursive-descent parser and printer for the
null / boolean / integer / string / array / object fragment of JSON (floats,
`\uXXXX` escapes and NaN/Infinity are outside the fragment; like Python's,
the parser rejects leading-zero integer literals and unescaped control
characters inside strings). -/

inductive JVal where
  | jnull : JVal
  | jbool : Bool → JVal
  | jint : Int → JVal
  | jstr : String → JVal
  | jarr : List JVal → JVal
  | jobj : List (String × JVal) → JVal

/-- JSON whitespace. -/
def isJsonWs (c : Char) : Bool := c = ' ' ∨ c = '\t' ∨ c = '\n' ∨ c = '\x0d'

/-- Skip JSON whitespace. -/
def skipWs (l : List Char) : List Char := l.dropWhile isJsonWs

/-- Parse the body of a JSON string after the opening quote. -/
def parseJStr : Nat → List Char → Option (List Char × List Char)
  | 0, _ => none
  | _ + 1, [] => none
  | fuel + 1, c :: cs =>
    if c = '"' then some ([], cs)
    else if c = '\\' then
      match cs with
      | [] => none
      | e :: cs2 =>
        let dec : Option Char :=
          if e = '"' then some '"' else if e = '\\' then some '\\'
          else if e = '/' then some '/' else if e = 'n' then some '\n'
          else if e = 't' then some '\t' else if e = 'r' then some '\x0d'
          else if e = 'b' then some '\x08' else if e = 'f' then some '\x0c'
          else none
        match dec with
        | none => none
        | some d =>
          match parseJStr fuel cs2 with
          | none => none
          | some (body, rest) => some (d :: body, rest)
    else if c.toNat < 32 then none
    else
      match parseJStr fuel cs with
      | none => none
      | some (body, rest) => some (c :: body, rest)

/-- Parse an optionally signed integer literal (JSON's number grammar for
integers: `0` or a nonzero leading digit, so no leading zeros). -/
def parseJInt (l : List Char) : Option (Int × List Char) :=
  let (neg, l') := if l.head? = some '-' then (true, l.tail) else (false, l)
  let digits := l'.takeWhile (fun c => '0' ≤ c ∧ c ≤ '9')
  let rest := l'.dropWhile (fun c => '0' ≤ c ∧ c ≤ '9')
  if digits = [] then none
  else if digits.head? = some '0' ∧ digits.length ≠ 1 then none
  else
    let v : Nat := digits.foldl (fun a c => a * 10 + (c.toNat - 48)) 0
    some (if neg then -(v : Int) else (v : Int), rest)

mutual

/-- Parse one JSON value (fuel-structural recursive descent). -/
def parseJVal : Nat → List Char → Option (JVal × List Char)
  | 0, _ => none
  | fuel + 1, l =>
    match skipWs l with
    | [] => none
    | c :: cs =>
      if c = 'n' then
        (litM ['u', 'l', 'l'] cs).map (fun r => (JVal.jnull, r))
      else if c = 't' then
        (litM ['r', 'u', 'e'] cs).map (fun r => (JVal.jbool true, r))
      else if c = 'f' then
        (litM ['a', 'l', 's', 'e'] cs).map (fun r => (JVal.jbool false, r))
      else if c = '"' then
        (parseJStr fuel cs).map (fun p => (JVal.jstr (String.mk p.1), p.2))
      else if c = '[' then
        match skipWs cs with
        | ']' :: r => some (JVal.jarr [], r)
        | l2 => (parseJElems fuel l2).map (fun p => (JVal.jarr p.1, p.2))
      else if c = '\x7b' then
        match skipWs cs with
        | '\x7d' :: r => some (JVal.jobj [], r)
        | l2 => (parseJMembers fuel l2).map (fun p => (JVal.jobj p.1, p.2))
      else
        (parseJInt (c :: cs)).map (fun p => (JVal.jint p.1, p.2))

/-- Parse array elements up to and including the closing bracket. -/
def parseJElems : Nat → List Char → Option (List JVal × List Char)
  | 0, _ => none
  | fuel + 1, l =>
    match parseJVal fuel l with
    | none => none
    | some (v, rest) =>
      match skipWs rest with
      | ',' :: r2 =>
        match parseJElems fuel r2 with
        | none => none
        | some (vs, r3) => some (v :: vs, r3)
      | ']' :: r2 => some ([v], r2)
      | _ => none

/-- Parse object members up to and including the closing brace. -/
def parseJMembers : Nat → List Char → Option (List (String × JVal) × List Char)
  | 0, _ => none
  | fuel + 1, l =>
    match skipWs l with
    | '"' :: cs =>
      match parseJStr fuel cs with
      | none => none
      | some (key, rest) =>
        match skipWs rest with
        | ':' :: r2 =>
          match parseJVal fuel r2 with
          | none => none
          | some (v, r3) =>
            match skipWs r3 with
            | ',' :: r4 =>
              match parseJMembers fuel r4 with
              | none => none
              | some (ms, r5) => some ((String.mk key, v) :: ms, r5)
            | '\x7d' :: r4 => some ([(String.mk key, v)], r4)
            | _ => none
        | _ => none
    | _ => none

end

/-- The executable `loads` instance: parse one value of the fragment
surrounded by whitespace and demand the input is exhausted, as `json.loads`
does. -/
def pyJsonLoads (text : String) : Option JVal :=
  match parseJVal (2 * text.data.length + 4) text.data with
  | none => none
  | some (v, rest) => if skipWs rest = [] then some v else none

/-- Escape one character for a JSON string as `json.dumps` does (the
claim-relevant ASCII cases). -/
def jsonEscapeChar (c : Char) : List Char :=
  if c = '"' then ['\\', '"'] else if c = '\\' then ['\\', '\\']
  else if c = '\n' then ['\\', 'n'] else if c = '\t' then ['\\', 't']
  else if c = '\x0d' then ['\\', 'r'] else if c = '\x08' then ['\\', 'b']
  else if c = '\x0c' then ['\\', 'f'] else [c]

/-- Python `str(i)` for an integer. -/
def intRepr (i : Int) : String :=
  if i < 0 then "-" ++ natRepr i.natAbs else natRepr i.natAbs

/-- A JSON string literal as `json.dumps` renders it. -/
def dumpsStr (s : String) : String :=
  String.mk ('"' :: ((s.data.map jsonEscapeChar).flatten ++ ['"']))

mutual

/-- Python `json.dumps` with default separators. -/
def pyJsonDumps : JVal → String
  | JVal.jnull => "null"
  | JVal.jbool true => "true"
  | JVal.jbool false => "false"
  | JVal.jint i => intRepr i
  | JVal.jstr s => dumpsStr s
  | JVal.jarr xs => "[" ++ (dumpsElems xs ++ "]")
  | JVal.jobj ms => "\x7b" ++ (dumpsMembers ms ++ "\x7d")

/-- Array elements joined with `json.dumps`' default `", "` separator. -/
def dumpsElems : List JVal → String
  | [] => ""
  | [x] => pyJsonDumps x
  | x :: y :: rest => pyJsonDumps x ++ (", " ++ dumpsElems (y :: rest))

/-- Object members joined with the default `", "` and `": "` separators. -/
def dumpsMembers : List (String × JVal) → String
  | [] => ""
  | [kv] => dumpsStr kv.1 ++ (": " ++ pyJsonDumps kv.2)
  | kv :: y :: rest =>
    dumpsStr kv.1 ++ (": " ++ (pyJsonDumps kv.2 ++ (", " ++ dumpsMembers (y :: rest))))

end

/-- Python dict construction from parsed object members: first occurrence
keeps its position, later duplicates overwrite the value. -/
def jobjToDict (ms : List (String × JVal)) : List (String × JVal) :=
  ms.foldl
    (fun d kv =>
      if d.any (fun e => e.1 = kv.1) then d.map (fun e => if e.1 = kv.1 then kv else e)
      else d ++ [kv])
    []

/-- Python `text.find(c)`: index of the first occurrence, `none` for -1. -/
def pyFindChar (l : List Char) (c : Char) : Option Nat := l.indexOf? c

/-- Python `text.rfind(c)`: index of the last occurrence, `none` for -1. -/
def pyRFindChar (l : List Char) (c : Char) : Option Nat :=
  (l.reverse.indexOf? c).map (fun i => l.length - 1 - i)

/-- A parsed value that is not a JSON object, as `isinstance(..., dict)`
sees it. -/
def JVal.isObj : JVal → Bool
  | JVal.jobj _ => true
  | _ => false

/-- The value stored for a key of the returned mapping: strings unchanged,
anything else re-serialized through the library's `json.dumps`, here the
parameter `dumps` (lines 67-69). -/
def jvalToStr (dumps : JVal → String) : JVal → String
  | JVal.jstr s => s
  | v => dumps v

/-- `generate_project_from_prompt` (src/generator.py lines 33-72) from the
response text onward, with the standard library's `json.loads` and
`json.dumps` abstracted as `loads` (where `none` models a raising call) and
`dumps`: try `json.loads` on the whole text; on failure locate the first `{`
and last `}` (ValueError if either is missing) and parse the slice, any parse
failure there raising `json.JSONDecodeError` (a `ValueError` subclass);
reject non-objects with ValueError; then stringify values. -/
def generate_project_from_prompt (loads : String → Option JVal)
    (dumps : JVal → String) (text : String) :
    Except String (List (String × String)) :=
  let parsed : Except String JVal :=
    match loads text with
    | some j => Except.ok j
    | none =>
      match pyFindChar text.data '\x7b', pyRFindChar text.data '\x7d' with
      | none, _ => Except.error "Model did not return valid JSON"
      | some _, none => Except.error "Model did not return valid JSON"
      | some st, some en =>
        match loads (String.mk ((text.data.drop st).take (en + 1 - st))) with
        | some j => Except.ok j
        | none => Except.error "JSONDecodeError"
  match parsed with
  | Except.error e => Except.error e
  | Except.ok (JVal.jobj ms) =>
    Except.ok ((jobjToDict ms).map (fun kv => (kv.1, jvalToStr dumps kv.2)))
  | Except.ok _ => Except.error "Expected JSON object mapping filenames to contents"

/-! ## Supporting lemmas -/

theorem strOccursIn_of_append_left (a x b : String) (h : strOccursIn a b) :
    strOccursIn a (x ++ b) := by
  obtain ⟨u, v, rfl⟩ := h
  exact ⟨x ++ u, v, by rw [String.append_assoc]⟩

theorem strOccursIn_self_append (a y : String) : strOccursIn a (a ++ y) := ⟨"", y, rfl⟩

theorem strOccursIn_head (a y x : String) (h : x = a ++ y) : strOccursIn a x := ⟨"", y, h⟩

/-- The decimal value read back from a digit list. -/
def digitsVal (l : List Char) : Nat := l.foldl (fun a c => a * 10 + (c.toNat - 48)) 0

theorem digitsVal_append (l : List Char) (c : Char) :
    digitsVal (l ++ [c]) = digitsVal l * 10 + (c.toNat - 48) := by
  simp [digitsVal]

theorem digitChar_toNat (d : Nat) (h : d < 10) : (digitChar d).toNat = 48 + d := by
  interval_cases d <;> rfl

theorem natReprAux_val (fuel n : Nat) (h : n < fuel) :
    digitsVal (natReprAux fuel n) = n := by
  induction fuel generalizing n with
  | zero => omega
  | succ fuel ih =>
    rw [natReprAux]
    by_cases h10 : n < 10
    · simp only [if_pos h10]
      show digitsVal ([] ++ [digitChar n]) = n
      rw [digitsVal_append, digitChar_toNat n h10]
      simp [digitsVal]
    · simp only [if_neg h10]
      rw [digitsVal_append, ih (n / 10) (by omega), digitChar_toNat (n % 10) (by omega)]
      omega

theorem natRepr_inj {m n : Nat} (h : natRepr m = natRepr n) : m = n := by
  have hd : natReprAux (m + 1) m = natReprAux (n + 1) n := congrArg String.data h
  have := natReprAux_val (m + 1) m (by omega)
  rw [hd, natReprAux_val (n + 1) n (by omega)] at this
  omega

/-- The keys of a Python dict, in insertion order. -/
def keysOf (m : List (String × String)) : List String := m.map Prod.fst

theorem any_key_iff (m : List (String × String)) (k : String) :
    (m.any (fun kv => kv.1 = k)) = true ↔ k ∈ keysOf m := by
  rw [List.any_eq_true]
  constructor
  · rintro ⟨kv, hm, hk⟩
    exact List.mem_map.mpr ⟨kv, hm, of_decide_eq_true hk⟩
  · intro h
    obtain ⟨kv, hm, hk⟩ := List.mem_map.mp h
    exact ⟨kv, hm, decide_eq_true hk⟩

theorem keysOf_dictInsert (m : List (String × String)) (k v : String) :
    keysOf (dictInsert m k v) = if k ∈ keysOf m then keysOf m else keysOf m ++ [k] := by
  unfold dictInsert
  by_cases h : k ∈ keysOf m
  · rw [if_pos ((any_key_iff m k).mpr h), if_pos h]
    simp only [keysOf, List.map_map]
    apply List.map_congr_left
    intro kv _
    by_cases hk : kv.1 = k <;> simp [hk]
  · rw [if_neg (fun hc => h ((any_key_iff m k).mp hc)), if_neg h]
    simp [keysOf]

theorem mem_keysOf_dictInsert (m : List (String × String)) (k v k' : String) :
    k' ∈ keysOf (dictInsert m k v) ↔ k' = k ∨ k' ∈ keysOf m := by
  rw [keysOf_dictInsert]
  by_cases h : k ∈ keysOf m
  · rw [if_pos h]
    constructor
    · exact Or.inr
    · rintro (rfl | hm)
      · exact h
      · exact hm
  · rw [if_neg h]
    simp [or_comm]

theorem nodup_keysOf_dictInsert (m : List (String × String)) (k v : String)
    (h : (keysOf m).Nodup) : (keysOf (dictInsert m k v)).Nodup := by
  rw [keysOf_dictInsert]
  by_cases hm : k ∈ keysOf m
  · rwa [if_pos hm]
  · rw [if_neg hm]
    simpa [List.nodup_append] using ⟨h, hm⟩

theorem mem_keysOf_foldl_dictInsert_of_mem (pf : List (String × String))
    (m : List (String × String)) (k : String) (h : k ∈ keysOf m) :
    k ∈ keysOf (pf.foldl (fun fs kv => dictInsert fs kv.1 kv.2) m) := by
  induction pf generalizing m with
  | nil => exact h
  | cons kv rest ih =>
    exact ih _ ((mem_keysOf_dictInsert m kv.1 kv.2 k).mpr (Or.inr h))

theorem mem_keysOf_foldl_dictInsert_of_entry (pf : List (String × String))
    (m : List (String × String)) (kv : String × String) (hkv : kv ∈ pf) :
    kv.1 ∈ keysOf (pf.foldl (fun fs e => dictInsert fs e.1 e.2) m) := by
  induction pf generalizing m with
  | nil => cases hkv
  | cons e rest ih =>
    rcases List.mem_cons.mp hkv with rfl | hm
    · exact mem_keysOf_foldl_dictInsert_of_mem rest _ kv.1
        ((mem_keysOf_dictInsert m kv.1 kv.2 kv.1).mpr (Or.inl rfl))
    · exact ih _ hm

theorem nodup_keysOf_foldl_dictInsert (pf : List (String × String))
    (m : List (String × String)) (h : (keysOf m).Nodup) :
    (keysOf (pf.foldl (fun fs kv => dictInsert fs kv.1 kv.2) m)).Nodup := by
  induction pf generalizing m with
  | nil => exact h
  | cons kv rest ih => exact ih _ (nodup_keysOf_dictInsert m kv.1 kv.2 h)

/-- What strategy 2 produces when spelled out directly: the fenced block
contents, stripped, under the positional names `file_1.txt`, `file_2.txt`, …
starting at `i`. -/
def fencedNamed (i : Nat) : List (List Char) → List (String × String)
  | [] => []
  | cb :: rest =>
    ("file_" ++ (natRepr i ++ ".txt"), String.mk (pyStripL cb)) :: fencedNamed (i + 1) rest

/-- The positional file name. -/
def fencedName (i : Nat) : String := "file_" ++ (natRepr i ++ ".txt")

theorem fencedName_inj {i j : Nat} (h : fencedName i = fencedName j) : i = j := by
  unfold fencedName at h
  have hd := congrArg String.data h
  simp only [String.data_append] at hd
  have h1 := List.append_cancel_left hd
  have h2 := List.append_cancel_right h1
  exact natRepr_inj (String.ext h2)

theorem keysOf_fencedNamed (i : Nat) (cbs : List (List Char)) (k : String)
    (h : k ∈ keysOf (fencedNamed i cbs)) : ∃ j, i ≤ j ∧ k = fencedName j := by
  induction cbs generalizing i with
  | nil => cases h
  | cons cb rest ih =>
    simp only [fencedNamed, keysOf, List.map_cons] at h
    rcases List.mem_cons.mp h with h | h
    · exact ⟨i, le_refl i, h⟩
    · obtain ⟨j, hij, rfl⟩ := ih (i + 1) h
      exact ⟨j, by omega, rfl⟩

theorem fencedFiles_go (cbs : List (List Char)) (i : Nat) (files : List (String × String))
    (hfresh : ∀ j, i ≤ j → fencedName j ∉ keysOf files) :
    (cbs.foldl
      (fun (acc : Nat × List (String × String)) cb =>
        (acc.1 + 1,
         dictInsert acc.2 ("file_" ++ (natRepr acc.1 ++ ".txt")) (String.mk (pyStripL cb))))
      (i, files)).2 = files ++ fencedNamed i cbs := by
  induction cbs generalizing i files with
  | nil => simp [fencedNamed]
  | cons cb rest ih =>
    have hstep : dictInsert files ("file_" ++ (natRepr i ++ ".txt")) (String.mk (pyStripL cb)) =
        files ++ [(fencedName i, String.mk (pyStripL cb))] := by
      unfold dictInsert
      rw [if_neg]
      · rfl
      · intro hc
        exact hfresh i (le_refl i) ((any_key_iff files (fencedName i)).mp hc)
    have hfresh2 : ∀ j, i + 1 ≤ j →
        fencedName j ∉ keysOf (files ++ [(fencedName i, String.mk (pyStripL cb))]) := by
      intro j hj hmem
      rw [keysOf, List.map_append] at hmem
      rcases List.mem_append.mp hmem with hm | hm
      · exact hfresh j (by omega) hm
      · simp only [List.map_cons, List.map_nil, List.mem_singleton] at hm
        have := fencedName_inj hm
        omega
    simp only [List.foldl_cons, hstep]
    rw [ih (i + 1) _ hfresh2]
    simp [fencedNamed, fencedName]

theorem fencedFiles_eq_fencedNamed (cbs : List (List Char)) :
    fencedFiles cbs = fencedNamed 1 cbs := by
  unfold fencedFiles
  rw [fencedFiles_go cbs 1 [] ?_]
  · rfl
  · intro j hj hmem
    simp [keysOf] at hmem

/-- C2: for every input text the Parser tries its three strategies in strict
order and returns only the first non-empty result: delimited file blocks win
outright (fenced blocks in the same text are ignored); otherwise fenced code
regions give exactly the positionally-named files `file_1.txt`, `file_2.txt`,
…; otherwise a case-insensitive HTML marker gives the single entry
`index.html` holding the full stripped input; otherwise the result is empty.
Results of different strategies are never merged. -/
theorem c2_parser_strategy_order (text : String) :
    safe_extract_code_blocks text =
      if findAllDelim text.data ≠ [] then delimFiles (findAllDelim text.data)
      else if findAllFenced text.data ≠ [] then fencedNamed 1 (findAllFenced text.data)
      else if hasHtmlMarker text then [("index.html", pyStrip text)]
      else [] := by
  unfold safe_extract_code_blocks
  by_cases hd : findAllDelim text.data ≠ []
  · simp only [if_pos hd]
  · simp only [if_neg hd]
    rcases hcb : findAllFenced text.data with _ | ⟨cb, rest⟩
    · simp only [fencedFiles_eq_fencedNamed, fencedNamed]
      by_cases hh : hasHtmlMarker text
      · simp [hh, dictInsert]
      · simp [hh]
    · have hne : fencedNamed 1 (cb :: rest) ≠ [] := by simp [fencedNamed]
      simp only [fencedFiles_eq_fencedNamed]
      rw [if_neg (by simp [hne] : ¬(fencedNamed 1 (cb :: rest) = [] ∧ hasHtmlMarker text = true))]
      simp [hne]

/-- The delimited-block wire format of section 6 of the spec: each file as a
`--- path ---` line, its content, then `--- end ---`. -/
def wireFormatText (files : List (String × String)) : String :=
  String.join (files.map (fun kv =>
    "--- " ++ (kv.1 ++ (" ---\n" ++ (kv.2 ++ "\n--- end ---\n")))))

/-- C4: round-trip through the delimited-block wire format for the two files
a.txt ↦ hello and src/b.txt ↦ world: the Parser recovers exactly those two
entries, from strategy 1 (the delimited matcher fires, so by
`c2_parser_strategy_order` the fenced and HTML strategies are not consulted). -/
theorem c4_wire_format_roundtrip :
    safe_extract_code_blocks (wireFormatText [("a.txt", "hello"), ("src/b.txt", "world")]) =
        [("a.txt", "hello"), ("src/b.txt", "world")] ∧
      findAllDelim (wireFormatText [("a.txt", "hello"), ("src/b.txt", "world")]).data ≠ [] := by
  constructor
  · decide
  · decide

/-- A Settings dict whose `pages` key is present but holds the empty list. -/
def emptyPagesSettings : Settings :=
  ⟨none, none, none, none, some [], none, none, none, none, none, none, none⟩

/-- C3 counterexample: with `pages` present but empty, the React branch of the
Template Generator raises (IndexError at the preview's `pages[0]`, modelled as
`none`) instead of substituting a default "Home" page. -/
theorem c3_counterexample :
    mock_generator_from_settings emptyPagesSettings "React + Tailwind" 2025 = none ∧
      emptyPagesSettings.pages = some [] := by
  constructor
  · decide
  · rfl

/-- C3 (amended): the Template Generator returns a mapping whenever the pages
list in force is non-empty; an absent `pages` key is defaulted to a single
"Home" page; the static branch never raises; but a present-and-empty `pages`
list makes the React branch raise (IndexError), modelled as `none`. -/
theorem c3_generator_totality (s : Settings) (framework : String) (year : Nat) :
    (pagesOf s ≠ [] → (mock_generator_from_settings s framework year).isSome = true) ∧
    (s.pages = none → pagesOf s = ["Home"]) ∧
    (reactFramework framework = false →
      (mock_generator_from_settings s framework year).isSome = true) ∧
    (s.pages = some [] → reactFramework framework = true →
      mock_generator_from_settings s framework year = none) := by
  refine ⟨?_, ?_, ?_, ?_⟩
  · intro hne
    unfold mock_generator_from_settings
    by_cases hf : reactFramework framework
    · rw [if_pos hf]
      rcases hp : pagesOf s with _ | ⟨p0, rest⟩
      · exact absurd hp hne
      · simp
    · rw [if_neg hf]
      rfl
  · intro hp
    simp [pagesOf, hp]
  · intro hf
    unfold mock_generator_from_settings
    rw [if_neg (by simp [hf])]
    rfl
  · intro hp hf
    unfold mock_generator_from_settings
    rw [if_pos hf]
    have he : pagesOf s = [] := by simp [pagesOf, hp]
    rw [he]

/-- The footer block vanishes when the footer toggle is off. -/
theorem footerCode_false (year : Nat) (title : String) : footerCode false year title = "" := rfl

/-- C9: the Template Generator is deterministic given the Settings and the
calendar year (`datetime.now().year` is its only time dependence), and with
the optional footer disabled its output does not depend on the year at all —
the copyright year in the footer is the only year-sensitive content. -/
theorem c9_generator_deterministic (s : Settings) (framework : String) (y1 y2 : Nat) :
    (y1 = y2 →
      mock_generator_from_settings s framework y1 =
        mock_generator_from_settings s framework y2) ∧
    (footerOf s = false →
      mock_generator_from_settings s framework y1 =
        mock_generator_from_settings s framework y2) := by
  constructor
  · rintro rfl
    rfl
  · intro hf
    unfold mock_generator_from_settings
    by_cases hr : reactFramework framework
    · rw [if_pos hr, if_pos hr]
      rcases hp : pagesOf s with _ | ⟨p0, rest⟩
      · rfl
      · simp only [Option.some.injEq]
        unfold reactFiles
        rw [hf]
        simp only [footerCode_false]
    · rw [if_neg hr, if_neg hr]


/-- C8 counterexample: with a prior answers state whose pages list already
holds "Contact" twice, the toggle block of lines 734-739 leaves both copies,
so the enabled `contact` toggle does not result in exactly one "Contact"
entry in `pages`. -/
theorem c8_counterexample :
    autoAppendPages ["Contact", "Contact"] true false false = ["Contact", "Contact"] ∧
      List.count "Contact" (autoAppendPages ["Contact", "Contact"] true false false) = 2 ∧
      ¬ List.count "Contact" (autoAppendPages ["Contact", "Contact"] true false false) = 1 := by
  refine ⟨by decide, by decide, by decide⟩
theorem contains_append_singleton_ne (l : List String) (a b : String) (hab : a ≠ b) :
    (l ++ [b]).contains a = l.contains a := by
  simp [List.elem_eq_mem, hab]

theorem c8_toggles_append_once (pages : List String) (contact login about : Bool)
    (hnd : pages.Nodup) :
    (autoAppendPages pages contact login about =
      pages ++
        ((if contact && !(pages.contains "Contact") then ["Contact"] else []) ++
         ((if login && !(pages.contains "Login") then ["Login"] else []) ++
          (if about && !(pages.contains "About") then ["About"] else [])))) ∧
    (contact = true → List.count "Contact" (autoAppendPages pages contact login about) = 1) ∧
    (login = true → List.count "Login" (autoAppendPages pages contact login about) = 1) ∧
    (about = true → List.count "About" (autoAppendPages pages contact login about) = 1) := by
  have heq : autoAppendPages pages contact login about =
      pages ++
        ((if contact && !(pages.contains "Contact") then ["Contact"] else []) ++
         ((if login && !(pages.contains "Login") then ["Login"] else []) ++
          (if about && !(pages.contains "About") then ["About"] else []))) := by
    simp only [autoAppendPages]
    by_cases h1 : contact && !(pages.contains "Contact")
    · rw [if_pos h1, if_pos h1]
      have hl : ((pages ++ ["Contact"]).contains "Login") = pages.contains "Login" :=
        contains_append_singleton_ne pages "Login" "Contact" (by decide)
      rw [hl]
      by_cases h2 : login && !(pages.contains "Login")
      · rw [if_pos h2, if_pos h2]
        have ha : ((pages ++ ["Contact"] ++ ["Login"]).contains "About") =
            pages.contains "About" := by
          rw [contains_append_singleton_ne _ "About" "Login" (by decide),
            contains_append_singleton_ne _ "About" "Contact" (by decide)]
        rw [ha]
        by_cases h3 : about && !(pages.contains "About")
        · rw [if_pos h3, if_pos h3]
          simp
        · rw [if_neg h3, if_neg h3]
          simp
      · rw [if_neg h2, if_neg h2]
        have ha : ((pages ++ ["Contact"]).contains "About") = pages.contains "About" :=
          contains_append_singleton_ne _ "About" "Contact" (by decide)
        rw [ha]
        by_cases h3 : about && !(pages.contains "About")
        · rw [if_pos h3, if_pos h3]
          simp
        · rw [if_neg h3, if_neg h3]
          simp
    · rw [if_neg h1, if_neg h1]
      by_cases h2 : login && !(pages.contains "Login")
      · rw [if_pos h2, if_pos h2]
        have ha : ((pages ++ ["Login"]).contains "About") = pages.contains "About" :=
          contains_append_singleton_ne _ "About" "Login" (by decide)
        rw [ha]
        by_cases h3 : about && !(pages.contains "About")
        · rw [if_pos h3, if_pos h3]
          simp
        · rw [if_neg h3, if_neg h3]
          simp
      · rw [if_neg h2, if_neg h2]
        by_cases h3 : about && !(pages.contains "About")
        · rw [if_pos h3, if_pos h3]
          simp
        · rw [if_neg h3, if_neg h3]
          simp
  refine ⟨heq, ?_, ?_, ?_⟩
  · intro hc
    rw [heq]
    by_cases hm : "Contact" ∈ pages
    · have h1 : (contact && !(pages.contains "Contact")) = false := by
        simp [List.elem_eq_mem, hm]
      rw [h1]
      have : List.count "Contact" pages = 1 :=
        List.count_eq_one_of_mem hnd hm
      simp [List.count_append, this, List.count_singleton]
      repeat' split
      all_goals simp
    · have h1 : (contact && !(pages.contains "Contact")) = true := by
        simp [List.elem_eq_mem, hm, hc]
      rw [h1]
      have h0 : List.count "Contact" pages = 0 := List.count_eq_zero.mpr hm
      simp [List.count_append, h0, List.count_singleton]
      repeat' split
      all_goals simp
  · intro hl
    rw [heq]
    by_cases hm : "Login" ∈ pages
    · have h1 : (login && !(pages.contains "Login")) = false := by
        simp [List.elem_eq_mem, hm]
      rw [h1]
      have hcnt : List.count "Login" pages = 1 := List.count_eq_one_of_mem hnd hm
      simp [List.count_append, hcnt, List.count_singleton]
      repeat' split
      all_goals simp
    · have h1 : (login && !(pages.contains "Login")) = true := by
        simp [List.elem_eq_mem, hm, hl]
      rw [h1]
      have h0 : List.count "Login" pages = 0 := List.count_eq_zero.mpr hm
      simp [List.count_append, h0, List.count_singleton]
      repeat' split
      all_goals simp
  · intro ha
    rw [heq]
    by_cases hm : "About" ∈ pages
    · have h1 : (about && !(pages.contains "About")) = false := by
        simp [List.elem_eq_mem, hm]
      rw [h1]
      have hcnt : List.count "About" pages = 1 := List.count_eq_one_of_mem hnd hm
      simp [List.count_append, hcnt, List.count_singleton]
      repeat' split
      all_goals simp
    · have h1 : (about && !(pages.contains "About")) = true := by
        simp [List.elem_eq_mem, hm, ha]
      rw [h1]
      have h0 : List.count "About" pages = 0 := List.count_eq_zero.mpr hm
      simp [List.count_append, h0, List.count_singleton]
      repeat' split
      all_goals simp

/-- C8 witness: a concrete duplicate-free state with all three toggles on:
"About" is already present and not duplicated, "Contact" and "Login" are
appended once each at the end, preserving prior order. -/
theorem c8_witness :
    autoAppendPages ["Home", "About"] true true true = ["Home", "About", "Contact", "Login"] ∧
      List.count "Contact" (autoAppendPages ["Home", "About"] true true true) = 1 ∧
      List.count "About" (autoAppendPages ["Home", "About"] true true true) = 1 := by
  have h := c8_toggles_append_once ["Home", "About"] true true true (by decide)
  exact ⟨by decide, h.2.1 rfl, h.2.2.2 rfl⟩

/-- C7 counterexample: the sidebar Link target for "Sign Up" is "/sign up"
(lower-cased only), not the hyphenated "/sign-up" the route uses, so the
claimed single mapping is not applied to every emitted link. -/
theorem c7_counterexample :
    sidebarLinkPath "Sign Up" ≠ route_path "Sign Up" ∧
      sidebarLinkPath "Sign Up" = "/sign up" ∧
      route_path "Sign Up" = "/sign-up" ∧
      strOccursIn "to=\"/sign up\"" (sidebarLinkDiv "Sign Up") := by
  refine ⟨by decide, by decide, by decide,
    ⟨"<div className=\"mb-2\"><Link ",
     " className=\"block py-2 px-3 rounded hover:bg-gray-200 dark:hover:bg-gray-700\">Sign Up</Link></div>",
     by decide⟩⟩

theorem pyReplaceAux_id_of_not_mem (o : Char) (new : List Char)
    (fuel : Nat) (l : List Char) (h : o ∉ l) :
    pyReplaceAux [o] new fuel l = l := by
  induction fuel generalizing l with
  | zero => rfl
  | succ fuel ih =>
    cases l with
    | nil => rfl
    | cons c cs =>
      have hne : (o == c) = false :=
        beq_eq_false_iff_ne.mpr (fun he => h (by rw [he]; exact List.mem_cons_self c cs))
      have hpre : ([o].isPrefixOf (c :: cs)) = false := by
        simp only [List.isPrefixOf, hne, Bool.false_and]
      simp only [pyReplaceAux, hpre, Bool.false_eq_true, if_false]
      rw [ih cs (fun hm => h (List.mem_cons_of_mem c hm))]

theorem pyReplace_space_id (s : String) (h : ' ' ∉ s.data) : pyReplace s " " "-" = s := by
  unfold pyReplace
  rw [if_neg (by decide)]
  rw [pyReplaceAux_id_of_not_mem ' ' _ _ _ h]

/-- C7 (amended): route declarations apply the claimed pure mapping (home to
the root path, otherwise lower-cased with spaces hyphenated), and that
mapping's outputs for Home, Analytics and Sign Up are as claimed; but sidebar
links apply a different mapping, the lower-cased name with no whitespace
replacement, so the two agree exactly on page names whose lower-casing
contains no space (and on "home"). -/
theorem c7_route_and_link_paths (p : String) :
    strOccursIn ("path=\"" ++ (route_path p ++ "\"")) (routeCode p (compName p)) ∧
      strOccursIn ("to=\"" ++ (sidebarLinkPath p ++ "\"")) (sidebarLinkDiv p) ∧
      (' ' ∉ (pyLower p).data → sidebarLinkPath p = route_path p) ∧
      (route_path "Home" = "/" ∧ route_path "Analytics" = "/analytics" ∧
        route_path "Sign Up" = "/sign-up") := by
  refine ⟨?_, ?_, ?_, by decide, by decide, by decide⟩
  · refine ⟨"<Route ", " element=\x7b<" ++ (compName p ++ " />\x7d />\n"), ?_⟩
    unfold routeCode
    rw [(by decide : ("<Route path=\"" : String) = "<Route " ++ "path=\""),
      (by decide : ("\" element=\x7b<" : String) = "\"" ++ " element=\x7b<")]
    simp only [String.append_assoc]
  · refine ⟨"<div className=\"mb-2\"><Link ",
      " className=\"block py-2 px-3 rounded hover:bg-gray-200 dark:hover:bg-gray-700\">" ++
        (p ++ "</Link></div>"), ?_⟩
    unfold sidebarLinkDiv
    rw [(by decide : ("<div className=\"mb-2\"><Link to=\"" : String) =
          "<div className=\"mb-2\"><Link " ++ "to=\""),
      (by decide :
        ("\" className=\"block py-2 px-3 rounded hover:bg-gray-200 dark:hover:bg-gray-700\">" : String) =
          "\"" ++ " className=\"block py-2 px-3 rounded hover:bg-gray-200 dark:hover:bg-gray-700\">")]
    simp only [String.append_assoc]
  · intro hsp
    unfold sidebarLinkPath route_path
    by_cases hh : pyLower p = "home"
    · rw [if_pos hh, if_pos hh]
    · rw [if_neg hh, if_neg hh, pyReplace_space_id (pyLower p) hsp]
theorem mem_keysOf_foldl_dictInsert_of_key (pf : List (String × String))
    (m : List (String × String)) (k : String) (h : k ∈ keysOf pf) :
    k ∈ keysOf (pf.foldl (fun fs e => dictInsert fs e.1 e.2) m) := by
  obtain ⟨kv, hm, hk⟩ := List.mem_map.mp h
  subst hk
  exact mem_keysOf_foldl_dictInsert_of_entry pf m kv hm

theorem pagesLoop_go_mono (pages : List String) (charts : Bool)
    (acc : String × String × List (String × String)) (k : String)
    (h : k ∈ keysOf acc.2.2) :
    k ∈ keysOf ((pages.foldl
      (fun acc p =>
        (acc.1 ++ importLine (compName p),
         acc.2.1 ++ routeCode p (compName p),
         dictInsert acc.2.2 (pageFileKey p) (pageModule p charts)))
      acc).2.2) := by
  induction pages generalizing acc with
  | nil => exact h
  | cons q rest ih =>
    exact ih _ ((mem_keysOf_dictInsert acc.2.2 (pageFileKey q) (pageModule q charts) k).mpr
      (Or.inr h))

theorem pagesLoop_go_mem (pages : List String) (charts : Bool)
    (acc : String × String × List (String × String)) (p : String) (hp : p ∈ pages) :
    pageFileKey p ∈ keysOf ((pages.foldl
      (fun acc p =>
        (acc.1 ++ importLine (compName p),
         acc.2.1 ++ routeCode p (compName p),
         dictInsert acc.2.2 (pageFileKey p) (pageModule p charts)))
      acc).2.2) := by
  induction pages generalizing acc with
  | nil => cases hp
  | cons q rest ih =>
    rcases List.mem_cons.mp hp with rfl | hm
    · exact pagesLoop_go_mono rest charts _ _
        ((mem_keysOf_dictInsert acc.2.2 (pageFileKey p) (pageModule p charts)
          (pageFileKey p)).mpr (Or.inl rfl))
    · exact ih _ hm

theorem pagesLoop_mem_key (pages : List String) (charts : Bool) (p : String)
    (hp : p ∈ pages) : pageFileKey p ∈ keysOf (pagesLoop pages charts).2.2 :=
  pagesLoop_go_mem pages charts ("", "", []) p hp

theorem pagesLoop_go_nodup (pages : List String) (charts : Bool)
    (acc : String × String × List (String × String)) (h : (keysOf acc.2.2).Nodup) :
    (keysOf ((pages.foldl
      (fun acc p =>
        (acc.1 ++ importLine (compName p),
         acc.2.1 ++ routeCode p (compName p),
         dictInsert acc.2.2 (pageFileKey p) (pageModule p charts)))
      acc).2.2)).Nodup := by
  induction pages generalizing acc with
  | nil => exact h
  | cons q rest ih => exact ih _ (nodup_keysOf_dictInsert _ _ _ h)

/-- The page-files component of `addExtras`, with every membership check
reduced to the original pages list (the names appended to `pages_added`
earlier in the chain differ from the later names checked). -/
def extrasPF (about contact login : Bool) (pages : List String)
    (pf : List (String × String)) : List (String × String) :=
  let pf1 := if about && !(pages.contains "About") then
    dictInsert pf "src/pages/About.jsx" aboutPageText else pf
  let pf2 := if contact && !(pages.contains "Contact") then
    dictInsert pf1 "src/pages/Contact.jsx" contactPageText else pf1
  if login && !(pages.contains "Login") then
    dictInsert pf2 "src/pages/Login.jsx" loginPageText else pf2

theorem addExtras_pf_eq (about contact login : Bool) (pages : List String)
    (imports routes : String) (pf : List (String × String)) :
    (addExtras about contact login pages imports routes pf).2.2 =
      extrasPF about contact login pages pf := by
  have hCA : ("Contact" : String) ≠ "About" := by decide
  have hLA : ("Login" : String) ≠ "About" := by decide
  have hLC : ("Login" : String) ≠ "Contact" := by decide
  by_cases h1 : about = true ∧ "About" ∉ pages <;>
    by_cases h2 : contact = true ∧ "Contact" ∉ pages <;>
      by_cases h3 : login = true ∧ "Login" ∉ pages <;>
        simp [addExtras, extrasPF, List.elem_eq_mem, h1, h2, h3, List.mem_append, hCA, hLA, hLC]

theorem mem_ite_dictInsert {c : Prop} [Decidable c] (m : List (String × String))
    (k' v k : String) (h : k ∈ keysOf m) :
    k ∈ keysOf (if c then dictInsert m k' v else m) := by
  split
  · exact (mem_keysOf_dictInsert m k' v k).mpr (Or.inr h)
  · exact h

theorem nodup_ite_dictInsert {c : Prop} [Decidable c] (m : List (String × String))
    (k' v : String) (h : (keysOf m).Nodup) :
    (keysOf (if c then dictInsert m k' v else m)).Nodup := by
  split
  · exact nodup_keysOf_dictInsert m k' v h
  · exact h

theorem extrasPF_nodup (about contact login : Bool) (pages : List String)
    (pf : List (String × String)) (h : (keysOf pf).Nodup) :
    (keysOf (extrasPF about contact login pages pf)).Nodup := by
  unfold extrasPF
  exact nodup_ite_dictInsert _ _ _ (nodup_ite_dictInsert _ _ _ (nodup_ite_dictInsert _ _ _ h))

theorem extrasPF_mem_login (about contact login : Bool) (pages : List String)
    (pf : List (String × String)) (hl : login = true)
    (hbase : "Login" ∈ pages → "src/pages/Login.jsx" ∈ keysOf pf) :
    "src/pages/Login.jsx" ∈ keysOf (extrasPF about contact login pages pf) := by
  by_cases hm : "Login" ∈ pages
  · exact mem_ite_dictInsert _ _ _ _
      (mem_ite_dictInsert _ _ _ _ (mem_ite_dictInsert _ _ _ _ (hbase hm)))
  · have hcond : (login && !(pages.contains "Login")) = true := by
      simp [List.elem_eq_mem, hm, hl]
    unfold extrasPF
    rw [hcond]
    simp only [if_true]
    exact (mem_keysOf_dictInsert _ _ _ _).mpr (Or.inl rfl)

theorem extrasPF_mem_contact (about contact login : Bool) (pages : List String)
    (pf : List (String × String)) (hc : contact = true)
    (hbase : "Contact" ∈ pages → "src/pages/Contact.jsx" ∈ keysOf pf) :
    "src/pages/Contact.jsx" ∈ keysOf (extrasPF about contact login pages pf) := by
  by_cases hm : "Contact" ∈ pages
  · exact mem_ite_dictInsert _ _ _ _
      (mem_ite_dictInsert _ _ _ _ (mem_ite_dictInsert _ _ _ _ (hbase hm)))
  · have hcond : (contact && !(pages.contains "Contact")) = true := by
      simp [List.elem_eq_mem, hm, hc]
    unfold extrasPF
    rw [hcond]
    simp only [if_true]
    exact mem_ite_dictInsert _ _ _ _ ((mem_keysOf_dictInsert _ _ _ _).mpr (Or.inl rfl))

theorem extrasPF_mem_about (about contact login : Bool) (pages : List String)
    (pf : List (String × String)) (ha : about = true)
    (hbase : "About" ∈ pages → "src/pages/About.jsx" ∈ keysOf pf) :
    "src/pages/About.jsx" ∈ keysOf (extrasPF about contact login pages pf) := by
  by_cases hm : "About" ∈ pages
  · exact mem_ite_dictInsert _ _ _ _
      (mem_ite_dictInsert _ _ _ _ (mem_ite_dictInsert _ _ _ _ (hbase hm)))
  · have hcond : (about && !(pages.contains "About")) = true := by
      simp [List.elem_eq_mem, hm, ha]
    unfold extrasPF
    rw [hcond]
    simp only [if_true]
    exact mem_ite_dictInsert _ _ _ _
      (mem_ite_dictInsert _ _ _ _ ((mem_keysOf_dictInsert _ _ _ _).mpr (Or.inl rfl)))
theorem reactFiles_keys_nodup (s : Settings) (year : Nat) (p0 : String) :
    (keysOf (reactFiles s year p0)).Nodup := by
  simp only [reactFiles]
  apply nodup_keysOf_dictInsert
  apply nodup_keysOf_dictInsert
  apply nodup_keysOf_dictInsert
  apply nodup_keysOf_dictInsert
  apply nodup_keysOf_dictInsert
  apply nodup_keysOf_foldl_dictInsert
  apply nodup_keysOf_dictInsert
  apply nodup_keysOf_dictInsert
  apply nodup_keysOf_dictInsert
  apply nodup_keysOf_dictInsert
  apply nodup_keysOf_dictInsert
  apply nodup_keysOf_dictInsert
  apply nodup_keysOf_dictInsert
  exact List.nodup_nil

theorem reactFiles_mem_of_extras (s : Settings) (year : Nat) (p0 : String) (k : String)
    (h : k ∈ keysOf (addExtras (aboutOf s) (contactOf s) (loginOf s) (pagesOf s)
      (pagesLoop (pagesOf s) (chartsOf s)).1
      (pagesLoop (pagesOf s) (chartsOf s)).2.1
      (pagesLoop (pagesOf s) (chartsOf s)).2.2).2.2) :
    k ∈ keysOf (reactFiles s year p0) := by
  simp only [reactFiles]
  apply (mem_keysOf_dictInsert _ _ _ _).mpr
  right
  apply (mem_keysOf_dictInsert _ _ _ _).mpr
  right
  apply (mem_keysOf_dictInsert _ _ _ _).mpr
  right
  apply (mem_keysOf_dictInsert _ _ _ _).mpr
  right
  apply (mem_keysOf_dictInsert _ _ _ _).mpr
  right
  exact mem_keysOf_foldl_dictInsert_of_key _ _ _ h
/-- C6: in the React branch with all three toggles enabled, the file mapping
contains the page modules `src/pages/Login.jsx`, `src/pages/Contact.jsx` and
`src/pages/About.jsx` exactly once each, whether or not "Login", "Contact" or
"About" already appear in the base pages list (the result is `none` exactly
when the branch raises on an empty pages list, and then there is no mapping
at all). -/
theorem c6_extra_pages_exactly_once (s : Settings) (framework : String) (year : Nat)
    (hf : reactFramework framework = true) (hl : loginOf s = true)
    (hc : contactOf s = true) (ha : aboutOf s = true) :
    (mock_generator_from_settings s framework year).map
        (fun m => ((keysOf m).count "src/pages/Login.jsx",
          (keysOf m).count "src/pages/Contact.jsx",
          (keysOf m).count "src/pages/About.jsx")) =
      (mock_generator_from_settings s framework year).map (fun _ => (1, 1, 1)) := by
  unfold mock_generator_from_settings
  rw [if_pos hf]
  rcases hp : pagesOf s with _ | ⟨p0, rest⟩
  · rfl
  · simp only [Option.map_some']
    have hnd := reactFiles_keys_nodup s year p0
    have hex := addExtras_pf_eq (aboutOf s) (contactOf s) (loginOf s) (pagesOf s)
      (pagesLoop (pagesOf s) (chartsOf s)).1
      (pagesLoop (pagesOf s) (chartsOf s)).2.1
      (pagesLoop (pagesOf s) (chartsOf s)).2.2
    have hLm : "src/pages/Login.jsx" ∈ keysOf (reactFiles s year p0) := by
      apply reactFiles_mem_of_extras
      rw [hex]
      apply extrasPF_mem_login _ _ _ _ _ hl
      intro hmem
      have := pagesLoop_mem_key (pagesOf s) (chartsOf s) "Login" hmem
      rwa [(by decide : pageFileKey "Login" = "src/pages/Login.jsx")] at this
    have hCm : "src/pages/Contact.jsx" ∈ keysOf (reactFiles s year p0) := by
      apply reactFiles_mem_of_extras
      rw [hex]
      apply extrasPF_mem_contact _ _ _ _ _ hc
      intro hmem
      have := pagesLoop_mem_key (pagesOf s) (chartsOf s) "Contact" hmem
      rwa [(by decide : pageFileKey "Contact" = "src/pages/Contact.jsx")] at this
    have hAm : "src/pages/About.jsx" ∈ keysOf (reactFiles s year p0) := by
      apply reactFiles_mem_of_extras
      rw [hex]
      apply extrasPF_mem_about _ _ _ _ _ ha
      intro hmem
      have := pagesLoop_mem_key (pagesOf s) (chartsOf s) "About" hmem
      rwa [(by decide : pageFileKey "About" = "src/pages/About.jsx")] at this
    congr 1
    refine Prod.ext ?_ (Prod.ext ?_ ?_)
    · exact List.count_eq_one_of_mem hnd hLm
    · exact List.count_eq_one_of_mem hnd hCm
    · exact List.count_eq_one_of_mem hnd hAm

/-- A concrete Settings with all three toggles on and "Login" already among
the pages. -/
def c6WitnessSettings : Settings :=
  ⟨none, none, none, none, some ["Home", "Login"], none, some true, none, none, none,
    some true, some true⟩

/-- C6 witness: the theorem applied to a concrete Settings whose base pages
already contain "Login". -/
theorem c6_witness :
    (mock_generator_from_settings c6WitnessSettings "React + Tailwind" 2025).map
        (fun m => ((keysOf m).count "src/pages/Login.jsx",
          (keysOf m).count "src/pages/Contact.jsx",
          (keysOf m).count "src/pages/About.jsx")) =
      (mock_generator_from_settings c6WitnessSettings "React + Tailwind" 2025).map
        (fun _ => (1, 1, 1)) :=
  c6_extra_pages_exactly_once c6WitnessSettings "React + Tailwind" 2025 (by decide) rfl rfl rfl

/-- A Settings dict with every key absent (all defaults in force). -/
def c1Settings : Settings :=
  ⟨none, none, none, none, none, none, none, none, none, none, none, none⟩

/-- C1 counterexample: remote generation requested, credential present, and
the remote completion call raises — the handler shows an error and nothing is
delivered to the Materializer, while the Template Generator's output on the
same Settings is a non-empty mapping; the delivered result therefore does not
equal the Template Generator's output, contradicting the claimed fallback. -/
theorem c1_counterexample :
    deliveredFiles (some "React + Tailwind") true (some "key") none c1Settings 2025 = none ∧
      (mock_generator_from_settings c1Settings "React + Tailwind" 2025).isSome = true ∧
      deliveredFiles (some "React + Tailwind") true (some "key") none c1Settings 2025 ≠
        mock_generator_from_settings c1Settings "React + Tailwind" 2025 := by
  refine ⟨by decide, rfl, ?_⟩
  intro h
  have h2 : (mock_generator_from_settings c1Settings "React + Tailwind" 2025).isSome = true := rfl
  rw [← h] at h2
  exact absurd h2 (by decide)

/-- Remote generation is never attempted when the checkbox is off. -/
theorem wantsRemote_false (framework : Option String) : wantsRemote framework false = false := by
  cases framework <;> simp [wantsRemote]

/-- C1 (amended): when remote generation is attempted (react framework
stored, checkbox ticked, credential present) and the completion call raises
or the Parser finds nothing in the response, generation aborts with an error
and nothing is delivered to the Materializer — there is no fallback to the
Template Generator on this path and no partial mix of outputs.  Only the
credential-absent path downgrades to the Template Generator, behaving exactly
like the remote-disabled path. -/
theorem c1_remote_failure_aborts (framework : Option String) (useRemote : Bool)
    (key : String) (s : Settings) (year : Nat) (resp : Option String)
    (hw : wantsRemote framework useRemote = true) :
    (resp = none → deliveredFiles framework useRemote (some key) resp s year = none) ∧
    (∀ t, resp = some t → safe_extract_code_blocks t = [] →
      deliveredFiles framework useRemote (some key) resp s year = none) ∧
    (deliveredFiles framework useRemote none resp s year =
      deliveredFiles framework false (some key) resp s year) := by
  refine ⟨?_, ?_, ?_⟩
  · rintro rfl
    unfold deliveredFiles generationAttempt
    rw [if_pos hw]
    rfl
  · rintro t rfl hempty
    unfold deliveredFiles generationAttempt llm_generate
    rw [if_pos hw]
    simp [hempty]
  · unfold deliveredFiles generationAttempt
    rw [if_pos hw, if_neg (by simp [wantsRemote_false])]

/-- C1 witness: the abort branch at a concrete raising call. -/
theorem c1_witness :
    deliveredFiles (some "React + Tailwind") true (some "key") none c1Settings 2025 = none :=
  (c1_remote_failure_aborts (some "React + Tailwind") true "key" c1Settings 2025 none
    (by decide)).1 rfl

/-- The parse the code effectively uses, for a library parser `loads`: the
whole text if `loads` accepts it, otherwise the brace-delimited slice. -/
def effectiveParse (loads : String → Option JVal) (text : String) : Option JVal :=
  match loads text with
  | some j => some j
  | none =>
    match pyFindChar text.data '\x7b', pyRFindChar text.data '\x7d' with
    | some st, some en => loads (String.mk ((text.data.drop st).take (en + 1 - st)))
    | _, _ => none

/-- Claim C10's raising condition, formalised from the claim's words: no
extractable JSON object (no opening or no closing brace), or the parsed JSON
is not an object. -/
def claimedC10Raises (loads : String → Option JVal) (text : String) : Prop :=
  (pyFindChar text.data '\x7b' = none ∨ pyRFindChar text.data '\x7d' = none) ∨
    (∃ j, effectiveParse loads text = some j ∧ j.isObj = false)

/-- The exact set of inputs on which `generate_project_from_prompt` raises a
ValueError (`json.JSONDecodeError` is a ValueError subclass), for a library
parser `loads`: the direct parse yields a non-object, or it fails and there
is no brace pair, or the brace-delimited slice fails to parse, or parses to a
non-object. -/
def raisesValueError (loads : String → Option JVal) (text : String) : Prop :=
  match loads text with
  | some j => j.isObj = false
  | none =>
    match pyFindChar text.data '\x7b', pyRFindChar text.data '\x7d' with
    | none, _ => True
    | some _, none => True
    | some st, some en =>
      match loads (String.mk ((text.data.drop st).take (en + 1 - st))) with
      | none => True
      | some j => j.isObj = false

/-- C10 counterexample: on the text `{oops}` the generator raises (the slice
between the braces is not valid JSON — under the executable instance exactly
as under Python's `json.loads` — so the inner `json.loads` raises
`JSONDecodeError`, a `ValueError`), yet the claim's condition does not hold —
both braces are present and there is no parsed JSON at all. -/
theorem c10_counterexample :
    (generate_project_from_prompt pyJsonLoads pyJsonDumps "\x7boops\x7d").isOk = false ∧
      ¬ claimedC10Raises pyJsonLoads "\x7boops\x7d" := by
  constructor
  · rfl
  · intro h
    rcases h with (h | h) | h
    · exact absurd h (by decide)
    · exact absurd h (by decide)
    · obtain ⟨j, hj, _⟩ := h
      have he : effectiveParse pyJsonLoads "\x7boops\x7d" = none := rfl
      rw [he] at hj
      exact Option.noConfusion hj

theorem exceptIsOk_error (e : String) :
    (Except.error e : Except String (List (String × String))).isOk = false := rfl

theorem exceptIsOk_ok (m : List (String × String)) :
    (Except.ok m : Except String (List (String × String))).isOk = true := rfl

/-- C10 (amended): for every behaviour `loads`, `dumps` of the library's
`json.loads` and `json.dumps` (their code is outside this repository) and
every response text, the generator raises a ValueError exactly on
`raisesValueError` — the claim's conditions plus the case of a
brace-delimited slice that `json.loads` itself fails on — and every returned
mapping is the parsed object with non-string values re-serialized through
`json.dumps` (so every value is a string). -/
theorem c10_json_generator (loads : String → Option JVal) (dumps : JVal → String)
    (text : String) :
    ((generate_project_from_prompt loads dumps text).isOk = false ↔
        raisesValueError loads text) ∧
      (∀ m, generate_project_from_prompt loads dumps text = Except.ok m →
        ∃ ms, effectiveParse loads text = some (JVal.jobj ms) ∧
          m = (jobjToDict ms).map (fun kv => (kv.1, jvalToStr dumps kv.2))) := by
  unfold generate_project_from_prompt raisesValueError effectiveParse
  rcases hL : loads text with _ | j
  · rcases hF : pyFindChar text.data '\x7b' with _ | st
    · simp [exceptIsOk_error]
    · rcases hR : pyRFindChar text.data '\x7d' with _ | en
      · simp [exceptIsOk_error]
      · rcases hS : loads (String.mk ((text.data.drop st).take (en + 1 - st))) with _ | j2
        · simp only [hS]
          simp [exceptIsOk_error]
        · simp only [hS]
          cases j2 <;> simp [exceptIsOk_error, exceptIsOk_ok, JVal.isObj]
  · cases j <;> simp [exceptIsOk_error, exceptIsOk_ok, JVal.isObj]

/-! ## C5: the static branch end to end (dedent is the identity on its shell) -/

theorem linesOf_ne_nil (l : List Char) : linesOf l ≠ [] := by
  unfold linesOf List.splitOn
  exact List.splitOnP_ne_nil _ l

theorem lines_eq_cons (a b : List Char) (ha : '\n' ∉ a) :
    linesOf (a ++ '\n' :: b) = a :: linesOf b := by
  unfold linesOf List.splitOn
  apply List.splitOnP_first
  · intro x hx
    simp only [beq_iff_eq]
    intro he
    exact ha (he ▸ hx)
  · simp

theorem lines_head_seg (x r : List Char) (hx : '\n' ∉ x) :
    linesOf (x ++ r) = (x ++ (linesOf r).headD []) :: (linesOf r).tail := by
  induction x with
  | nil =>
    rcases h : linesOf r with _ | ⟨h0, t⟩
    · exact absurd h (linesOf_ne_nil r)
    · simp [h]
  | cons c cs ih =>
    have hc : ¬((c == '\n') = true) := by
      simp only [beq_iff_eq]
      intro he
      exact hx (he ▸ List.mem_cons_self c cs)
    have step : linesOf ((c :: cs) ++ r) = List.modifyHead (List.cons c) (linesOf (cs ++ r)) := by
      unfold linesOf List.splitOn
      rw [List.cons_append, List.splitOnP_cons]
      simp [hc]
    rw [step, ih (fun hm => hx (List.mem_cons_of_mem c hm))]
    simp

theorem commonPrefix_nil_right (x : List Char) : commonPrefix x [] = [] := by
  cases x <;> rfl

theorem commonPrefix_nil_left (x : List Char) : commonPrefix [] x = [] := rfl

theorem foldl_commonPrefix_nil (is : List (List Char)) :
    is.foldl commonPrefix [] = [] := by
  induction is with
  | nil => rfl
  | cons a t ih => simpa [commonPrefix_nil_left] using ih

theorem foldl_commonPrefix_of_mem (is : List (List Char)) (i : List Char)
    (h : [] ∈ is) : is.foldl commonPrefix i = [] := by
  induction is generalizing i with
  | nil => cases h
  | cons a t ih =>
    rcases List.mem_cons.mp h with ha | ha
    · rw [List.foldl_cons, ← ha, commonPrefix_nil_right]
      exact foldl_commonPrefix_nil t
    · exact ih _ ha

theorem marginOf_eq_nil (segs : List (List Char)) (seg : List Char) (hmem : seg ∈ segs)
    (hcontent : seg.any (fun c => !isBlankChar c) = true)
    (hind : seg.takeWhile isBlankChar = []) : marginOf segs = [] := by
  unfold marginOf
  have hmemf : seg ∈ segs.filter (fun l => l.any (fun c => !isBlankChar c)) :=
    List.mem_filter.mpr ⟨hmem, hcontent⟩
  have hmemi : ([] : List Char) ∈
      (segs.filter (fun l => l.any (fun c => !isBlankChar c))).map
        (fun l => l.takeWhile isBlankChar) := by
    rw [← hind]
    exact List.mem_map_of_mem _ hmemf
  rcases hi : (segs.filter (fun l => l.any (fun c => !isBlankChar c))).map
      (fun l => l.takeWhile isBlankChar) with _ | ⟨i0, it⟩
  · rw [hi] at hmemi
    cases hmemi
  · rw [hi] at hmemi
    simp only [hi]
    rcases List.mem_cons.mp hmemi with h0 | h0
    · subst h0
      exact foldl_commonPrefix_nil it
    · exact foldl_commonPrefix_of_mem it i0 h0

theorem wsOnly_false_of_mem (seg : List Char) (c : Char) (hc : c ∈ seg)
    (hb : isBlankChar c = false) : wsOnly seg = false := by
  unfold wsOnly
  rcases seg with _ | ⟨d, t⟩
  · simp
  · simp only [Bool.and_eq_false_iff]
    right
    rw [Bool.eq_false_iff]
    intro hall
    rw [List.all_eq_true] at hall
    have hcb := hall c hc
    rw [hb] at hcb
    exact Bool.noConfusion hcb

theorem pyDedentL_eq_self (l : List Char)
    (hws : ∀ seg ∈ linesOf l, wsOnly seg = false)
    (hm : marginOf (linesOf l) = []) :
    pyDedentL l = l := by
  have hsegs : (linesOf l).map (fun seg => if wsOnly seg then [] else seg) = linesOf l := by
    have h2 : (linesOf l).map (fun seg => if wsOnly seg then [] else seg) =
        (linesOf l).map id := by
      apply List.map_congr_left
      intro seg hseg
      simp [hws seg hseg]
    rw [h2, List.map_id]
  unfold pyDedentL
  simp only []
  rw [hsegs, hm]
  simp only [if_pos rfl]
  exact List.intercalate_splitOn l '\n'

theorem pyDedent_eq_self (s : String)
    (hws : ∀ seg ∈ linesOf s.data, wsOnly seg = false)
    (hm : marginOf (linesOf s.data) = []) : pyDedent s = s := by
  unfold pyDedent
  rw [pyDedentL_eq_self s.data hws hm]

theorem body_foldl_append (ps : List String) (a : String) :
    ps.foldl (fun acc p => acc ++ sectionFor p) a =
      a ++ ps.foldl (fun acc p => acc ++ sectionFor p) "" := by
  induction ps generalizing a with
  | nil => simp [String.append_empty]
  | cons x t ih =>
    simp only [List.foldl_cons]
    rw [ih (a ++ sectionFor x), ih ((("" : String)) ++ sectionFor x)]
    have hx : (("" : String)) ++ sectionFor x = sectionFor x := rfl
    rw [hx, String.append_assoc]

theorem body_html_cons (p : String) (ps : List String) :
    body_html (p :: ps) = sectionFor p ++ body_html ps := by
  unfold body_html
  simp only [List.foldl_cons]
  have h0 : (("" : String)) ++ sectionFor p = sectionFor p := rfl
  rw [body_foldl_append ps (("" : String) ++ sectionFor p), h0]

theorem body_html_eq_join (ps : List String) :
    body_html ps = String.join (ps.map sectionFor) := by
  unfold body_html String.join
  rw [List.foldl_map]

/-- One `<section>` line without its trailing newline. -/
def sectionLine (p : String) : String :=
  "<section><h2>" ++ (p ++ ("</h2><p>Auto generated " ++ (p ++ " page.</p></section>")))

theorem sectionFor_data (p : String) :
    (sectionFor p).data = (sectionLine p).data ++ ['\n'] := by
  simp [sectionFor, sectionLine, String.data_append]

theorem newline_not_mem_sectionLine (p : String) (hp : '\n' ∉ p.data) :
    '\n' ∉ (sectionLine p).data := by
  have h1 : '\n' ∉ ("<section><h2>").data := by decide
  have h2 : '\n' ∉ ("</h2><p>Auto generated ").data := by decide
  have h3 : '\n' ∉ (" page.</p></section>").data := by decide
  simp only [sectionLine, String.data_append, List.mem_append]
  intro h
  rcases h with h | h | h | h | h
  · exact h1 h
  · exact hp h
  · exact h2 h
  · exact hp h
  · exact h3 h

theorem lines_body (ps : List String) (hps : ∀ p ∈ ps, '\n' ∉ p.data) (r : List Char) :
    linesOf ((body_html ps).data ++ r) =
      ps.map (fun p => (sectionLine p).data) ++ linesOf r := by
  induction ps with
  | nil => simp [body_html]
  | cons p t ih =>
    have hd : (body_html (p :: t)).data ++ r =
        (sectionLine p).data ++ '\n' :: ((body_html t).data ++ r) := by
      rw [body_html_cons]
      simp only [String.data_append, sectionFor_data, List.append_assoc, List.cons_append,
        List.nil_append]
    rw [hd, lines_eq_cons _ _ (newline_not_mem_sectionLine p (hps p (List.mem_cons_self p t))),
      ih (fun q hq => hps q (List.mem_cons_of_mem p hq))]
    simp

theorem lines_chunk (a b r : List Char) (ha : '\n' ∉ a) :
    linesOf ((a ++ '\n' :: b) ++ r) = a :: linesOf (b ++ r) := by
  rw [List.append_assoc]
  exact lines_eq_cons a (b ++ r) ha

set_option maxRecDepth 8192 in
theorem linesOf_staticLit1 (r : List Char) :
    linesOf (("<!doctype html>\n        <html>\n        <head>\n          <meta charset=\"utf-8\"/>\n          <meta name=\"viewport\" content=\"width=device-width,initial-scale=1\">\n          <title>").data ++ r) =
      ("<!doctype html>").data :: ("        <html>").data :: ("        <head>").data ::
      ("          <meta charset=\"utf-8\"/>").data ::
      ("          <meta name=\"viewport\" content=\"width=device-width,initial-scale=1\">").data ::
      (("          <title>").data ++ (linesOf r).headD []) :: (linesOf r).tail := by
  have e : ("<!doctype html>\n        <html>\n        <head>\n          <meta charset=\"utf-8\"/>\n          <meta name=\"viewport\" content=\"width=device-width,initial-scale=1\">\n          <title>").data =
      ("<!doctype html>").data ++ '\n' :: (("        <html>").data ++ '\n' ::
      (("        <head>").data ++ '\n' :: (("          <meta charset=\"utf-8\"/>").data ++ '\n' ::
      (("          <meta name=\"viewport\" content=\"width=device-width,initial-scale=1\">").data ++ '\n' ::
      ("          <title>").data)))) := by decide
  rw [e, lines_chunk _ _ _ (by decide), lines_chunk _ _ _ (by decide),
    lines_chunk _ _ _ (by decide), lines_chunk _ _ _ (by decide),
    lines_chunk _ _ _ (by decide), lines_head_seg _ _ (by decide)]

set_option maxRecDepth 8192 in
theorem linesOf_staticLit2 (r : List Char) :
    linesOf (("</title>\n          <style>body\x7bfont-family:Arial; padding:20px;\x7d header\x7bbackground:#222;color:#fff;padding:12px;border-radius:6px\x7d</style>\n        </head>\n        <body>\n          <header><h1>").data ++ r) =
      ("</title>").data ::
      ("          <style>body\x7bfont-family:Arial; padding:20px;\x7d header\x7bbackground:#222;color:#fff;padding:12px;border-radius:6px\x7d</style>").data ::
      ("        </head>").data :: ("        <body>").data ::
      (("          <header><h1>").data ++ (linesOf r).headD []) :: (linesOf r).tail := by
  have e : ("</title>\n          <style>body\x7bfont-family:Arial; padding:20px;\x7d header\x7bbackground:#222;color:#fff;padding:12px;border-radius:6px\x7d</style>\n        </head>\n        <body>\n          <header><h1>").data =
      ("</title>").data ++ '\n' ::
      (("          <style>body\x7bfont-family:Arial; padding:20px;\x7d header\x7bbackground:#222;color:#fff;padding:12px;border-radius:6px\x7d</style>").data ++ '\n' ::
      (("        </head>").data ++ '\n' :: (("        <body>").data ++ '\n' ::
      ("          <header><h1>").data))) := by decide
  rw [e, lines_chunk _ _ _ (by decide), lines_chunk _ _ _ (by decide),
    lines_chunk _ _ _ (by decide), lines_chunk _ _ _ (by decide),
    lines_head_seg _ _ (by decide)]

set_option maxRecDepth 8192 in
theorem linesOf_staticLit3 (r : List Char) :
    linesOf (("</h1></header>\n          ").data ++ r) =
      ("</h1></header>").data ::
      (("          ").data ++ (linesOf r).headD []) :: (linesOf r).tail := by
  have e : ("</h1></header>\n          ").data =
      ("</h1></header>").data ++ '\n' :: ("          ").data := by decide
  rw [e, lines_chunk _ _ _ (by decide), lines_head_seg _ _ (by decide)]

set_option maxRecDepth 8192 in
theorem linesOf_staticLit4 :
    linesOf ("\n        </body>\n        </html>").data =
      [[], ("        </body>").data, ("        </html>").data] := by decide

theorem staticIndexRaw_data (t body : String) :
    (staticIndexRaw t body).data =
      ("<!doctype html>\n        <html>\n        <head>\n          <meta charset=\"utf-8\"/>\n          <meta name=\"viewport\" content=\"width=device-width,initial-scale=1\">\n          <title>").data ++
      (t.data ++
      (("</title>\n          <style>body\x7bfont-family:Arial; padding:20px;\x7d header\x7bbackground:#222;color:#fff;padding:12px;border-radius:6px\x7d</style>\n        </head>\n        <body>\n          <header><h1>").data ++
      (t.data ++
      (("</h1></header>\n          ").data ++
      (body.data ++ ("\n        </body>\n        </html>").data))))) := by
  simp only [staticIndexRaw, String.data_append]

theorem staticIndexRaw_lines (t : String) (p0 : String) (ps' : List String)
    (ht : '\n' ∉ t.data) (hps : ∀ p ∈ p0 :: ps', '\n' ∉ p.data) :
    linesOf (staticIndexRaw t (body_html (p0 :: ps'))).data =
      ("<!doctype html>").data :: ("        <html>").data :: ("        <head>").data ::
      ("          <meta charset=\"utf-8\"/>").data ::
      ("          <meta name=\"viewport\" content=\"width=device-width,initial-scale=1\">").data ::
      (("          <title>").data ++ (t.data ++ ("</title>").data)) ::
      ("          <style>body\x7bfont-family:Arial; padding:20px;\x7d header\x7bbackground:#222;color:#fff;padding:12px;border-radius:6px\x7d</style>").data ::
      ("        </head>").data :: ("        <body>").data ::
      (("          <header><h1>").data ++ (t.data ++ ("</h1></header>").data)) ::
      (("          ").data ++ (sectionLine p0).data) ::
      (ps'.map (fun p => (sectionLine p).data) ++
        [[], ("        </body>").data, ("        </html>").data]) := by
  rw [staticIndexRaw_data, linesOf_staticLit1]
  rw [lines_head_seg t.data _ ht, linesOf_staticLit2]
  rw [lines_head_seg t.data _ ht, linesOf_staticLit3]
  rw [lines_body (p0 :: ps') hps, linesOf_staticLit4]
  simp only [List.map_cons, List.cons_append, List.headD_cons, List.tail_cons,
    List.append_assoc]

theorem lt_mem_sectionLine (p : String) : '<' ∈ (sectionLine p).data := by
  simp only [sectionLine, String.data_append]
  exact List.mem_append.mpr (Or.inl (by decide))

set_option maxRecDepth 8192 in
theorem staticIndexHtml_eq (t : String) (p0 : String) (ps' : List String)
    (ht : '\n' ∉ t.data) (hps : ∀ p ∈ p0 :: ps', '\n' ∉ p.data) :
    staticIndexHtml t (p0 :: ps') = staticIndexRaw t (body_html (p0 :: ps')) := by
  unfold staticIndexHtml
  apply pyDedent_eq_self
  · rw [staticIndexRaw_lines t p0 ps' ht hps]
    intro seg hseg
    simp only [List.mem_cons, List.mem_append, List.mem_map, List.mem_singleton,
      List.not_mem_nil, or_false] at hseg
    rcases hseg with h|h|h|h|h|h|h|h|h|h|h|⟨p, hpmem, h⟩|h|h|h
    · subst h; decide
    · subst h; decide
    · subst h; decide
    · subst h; decide
    · subst h; decide
    · subst h
      exact wsOnly_false_of_mem _ '<' (List.mem_append.mpr (Or.inl (by decide))) (by decide)
    · subst h; decide
    · subst h; decide
    · subst h; decide
    · subst h
      exact wsOnly_false_of_mem _ '<' (List.mem_append.mpr (Or.inl (by decide))) (by decide)
    · subst h
      exact wsOnly_false_of_mem _ '<'
        (List.mem_append.mpr (Or.inr (lt_mem_sectionLine p0))) (by decide)
    · rw [← h]
      exact wsOnly_false_of_mem _ '<' (lt_mem_sectionLine p) (by decide)
    · subst h; decide
    · subst h; decide
    · subst h; decide
  · rw [staticIndexRaw_lines t p0 ps' ht hps]
    exact marginOf_eq_nil _ (("<!doctype html>").data) (List.mem_cons_self _ _)
      (by decide) (by decide)

theorem dictInsert_two (k1 v1 k2 v2 : String) (h : k1 ≠ k2) :
    dictInsert (dictInsert [] k1 v1) k2 v2 = [(k1, v1), (k2, v2)] := by
  simp [dictInsert, h]

/-- C5: on every Settings whose `pages` list is present and non-empty (with
newline-free title and page names, so that `dedent` is the identity), the
static branch of `mock_generator_from_settings` returns exactly the two files
`index.html` and `styles.css`; the markup file is the document shell — naming
the site title in `<title>` and `<h1>` and carrying the inline `<style>`
reference — wrapping the concatenation of one `<section>` per page name, in
the given order, each a heading plus one placeholder sentence naming that
page. -/
theorem c5_static_branch (s : Settings) (framework : String) (year : Nat)
    (p0 : String) (ps' : List String)
    (hf : reactFramework framework = false)
    (hp : s.pages = some (p0 :: ps'))
    (ht : '\n' ∉ (titleOf s).data)
    (hps : ∀ p ∈ p0 :: ps', '\n' ∉ p.data) :
    mock_generator_from_settings s framework year =
      some [("index.html",
        "<!doctype html>\n        <html>\n        <head>\n          <meta charset=\"utf-8\"/>\n          <meta name=\"viewport\" content=\"width=device-width,initial-scale=1\">\n          <title>" ++
        (titleOf s ++ ("</title>\n          <style>body\x7bfont-family:Arial; padding:20px;\x7d header\x7bbackground:#222;color:#fff;padding:12px;border-radius:6px\x7d</style>\n        </head>\n        <body>\n          <header><h1>" ++
        (titleOf s ++ ("</h1></header>\n          " ++
        (String.join ((p0 :: ps').map sectionFor) ++ "\n        </body>\n        </html>")))))),
       ("styles.css", "/* simple */")] := by
  have hpg : pagesOf s = p0 :: ps' := by simp [pagesOf, hp]
  unfold mock_generator_from_settings
  rw [hf]
  simp only [Bool.false_eq_true, if_false]
  unfold staticFiles
  rw [hpg, staticIndexHtml_eq (titleOf s) p0 ps' ht hps, body_html_eq_join,
    dictInsert_two _ _ _ _ (by decide)]
  rfl

/-- A Settings dict whose only key is `pages`, with two pages. -/
def c5Settings : Settings :=
  ⟨none, none, none, none, some ["Home", "About"], none, none, none, none, none, none, none⟩

/-- C5 witness: the theorem applied to a concrete Settings and the framework
string "static". -/
theorem c5_witness :
    (mock_generator_from_settings c5Settings "static" 2025).isSome = true := by
  rw [c5_static_branch c5Settings "static" 2025 "Home" ["About"] (by decide) rfl
    (by decide) (by decide)]
  rfl
